import Mathlib

/-!
Verification of the ranking and itinerary-construction engine of
`src/backend/backend2.py` (functions `rank_activities`, `build_itineraries`,
`try_build_template`, `recommend` and their helpers).

Modelling conventions:
* Python floats are modelled as exact rationals (`ℚ`); Python ints as `ℤ`
  (`max_results`, a result count consumed by list slicing, as `ℕ`).
* Python `round(x, n)` is round-half-to-even on the exact value,
  matching CPython on values that are exactly representable in binary.
* Fallible code (`datetime` parsing/validation, `TypeError` on comparing
  offset-naive with offset-aware datetimes, tuple unpacking) is modelled
  in `Except String`.
* ISO-8601 timestamp strings (`Candidate.start` / `Candidate.end`) are
  modelled as already-parsed structured values `IsoDT`; the source's
  `.replace('Z', '+00:00')` turns a trailing `Z` into the offset `+00:00`,
  so a `Z`-suffixed string is the value with `tz = some 0`.
* `haversine_distance` computes with trigonometric functions over floats;
  it is abstracted as a function parameter `distKm` of the itinerary
  builder.  Concrete instantiations use `fun _ _ => 0`, which agrees with
  the source at coincident coordinates (the haversine of a point with
  itself is exactly `0`, even in floating point).
* Python `list.sort(key=...)` is stable and sorts by the key; `sortBy`
  below (insertion sort taking ties to the left) is stable and sorted,
  hence produces the same list for the total preorders used here.
-/

/-- Minutes-of-day pair `[start, end]` of an open-hours block. -/
abbrev OpenBlock := ℤ × ℤ

/-- `Location` dataclass: latitude/longitude in degrees. -/
structure Location where
  lat : ℚ
  lon : ℚ
  deriving Repr, DecidableEq, Inhabited

/-- Calendar date, the parsed content of the `"%Y-%m-%d"` string field. -/
structure PyDate where
  year : ℤ
  month : ℤ
  day : ℤ
  deriving Repr, DecidableEq, Inhabited

/-- A well-formed ISO-8601 timestamp as accepted by
`datetime.fromisoformat` after `.replace('Z', '+00:00')`:
date, clock time, and an optional UTC offset in minutes
(`tz = some 0` for a `Z`/`+00:00` suffix, `none` for a naive timestamp). -/
structure IsoDT where
  year : ℤ
  month : ℤ
  day : ℤ
  hour : ℤ
  minute : ℤ
  second : ℤ
  tz : Option ℤ
  deriving Repr, DecidableEq, Inhabited

/-- `UserRequest` dataclass. -/
structure UserRequest where
  date : PyDate
  start_time : String
  duration_minutes : ℤ
  group_size : ℤ
  budget_per_person_gbp : ℚ
  moods : List String
  center : Option Location := none
  max_walk_minutes_between_stops : ℤ := 15
  max_results : ℕ := 10
  preferred_radius_km : ℚ := 3
  deriving Repr, DecidableEq, Inhabited

/-- `Candidate` dataclass (`endTime` models the Python field `end`). -/
structure Candidate where
  id : String
  type : String
  name : String
  categories : List String
  location : Location
  distance_km_from_center : ℚ
  indoor : Bool
  outdoor : Bool := false
  price_tier : Option ℤ := none
  rating : Option ℚ := none
  reviews : Option ℤ := none
  open_hours : Option (List (String × List OpenBlock)) := none
  capacity_hint : Option ℤ := none
  price_min : Option ℚ := none
  price_max : Option ℚ := none
  start : Option IsoDT := none
  endTime : Option IsoDT := none
  deriving Repr, DecidableEq, Inhabited

/-- `WeatherHour` dataclass. -/
structure WeatherHour where
  time : String
  temp_c : ℚ
  precip_mm : ℚ
  is_rain : Bool
  deriving Repr, DecidableEq, Inhabited

/-- `WeatherSnapshot` dataclass. -/
structure WeatherSnapshot where
  date : PyDate
  hourly : List WeatherHour
  deriving Repr, DecidableEq, Inhabited

/-- The six component scores, the fixed keys of the `components` dict. -/
structure Components where
  mood : ℚ
  price : ℚ
  rating : ℚ
  group : ℚ
  distance : ℚ
  weather : ℚ
  deriving Repr, DecidableEq, Inhabited

/-- `RankedItem` dataclass. -/
structure RankedItem where
  item : Candidate
  score : ℚ
  components : Components
  reasons : List String
  eta_minutes_from_center : ℤ
  estimated_cost_pp : ℚ
  deriving Repr, DecidableEq, Inhabited

/-- `ItineraryStop` dataclass. -/
structure ItineraryStop where
  id : String
  name : String
  arrive : String
  depart : String
  walk_minutes_to_next : ℤ
  cost_pp : ℚ
  deriving Repr, DecidableEq, Inhabited

/-- `Itinerary` dataclass. -/
structure Itinerary where
  title : String
  stops : List ItineraryStop
  total_cost_pp : ℚ
  total_walk_minutes : ℤ
  reasons : List String
  plan_b : String
  deriving Repr, DecidableEq, Inhabited

/-- One entry of the `top` list assembled by `recommend`. -/
structure TopItem where
  id : String
  name : String
  type : String
  score : ℚ
  reasons : List String
  components : Components
  eta_minutes_from_center : ℤ
  estimated_cost_pp : ℚ
  deriving Repr, DecidableEq, Inhabited

/-- `RecommendationResponse` dataclass. -/
structure RecommendationResponse where
  request_id : String
  generated_at : String
  top : List TopItem
  itineraries : List Itinerary
  deriving Repr, DecidableEq, Inhabited

/-! ### Configuration tables (module-level constants of the source) -/

/-- `WEIGHTS`: fixed component weights, summing to 100. -/
def WEIGHTS : List (String × ℚ) :=
  [("mood", 30), ("price", 20), ("rating", 15), ("group", 15), ("distance", 10), ("weather", 10)]

/-- `PRICE_TIER_MAP`: venue price tier to per-person cost. -/
def PRICE_TIER_MAP : List (ℤ × ℚ) := [(1, 8), (2, 12), (3, 20), (4, 35)]

/-- `MOOD_CATEGORY_MAP`: mood tag to desired category set
(listed without duplicates, as the Python set literals). -/
def MOOD_CATEGORY_MAP : List (String × List String) :=
  [("karaoke", ["karaoke", "bar", "private-rooms", "singing"]),
   ("fun", ["karaoke", "arcade", "bowling", "darts", "pub-quiz", "bar", "pub"]),
   ("chill", ["cocktail", "wine-bar", "gastropub", "cafe", "lounge"]),
   ("competitive", ["bowling", "darts", "escape-room", "quiz", "pool", "games"]),
   ("live-music", ["live-music", "concert", "gig", "music-venue"]),
   ("culture", ["museum", "gallery", "theatre", "comedy", "art"])]

/-- `ITINERARY_TEMPLATES`: mood to slot list. -/
def ITINERARY_TEMPLATES : List (String × List String) :=
  [("karaoke", ["bar", "karaoke", "bar"]),
   ("fun", ["bar", "arcade|bowling|darts", "bar"]),
   ("competitive", ["bar", "bowling|darts|escape-room|quiz", "bar"]),
   ("chill", ["gastropub|restaurant", "live-music|comedy", "cocktail|dessert"]),
   ("live-music", ["bar", "live-music|concert", "bar"]),
   ("culture", ["cafe", "museum|gallery|theatre|comedy", "bar"])]

/-- `DWELL_TIMES`: category to (min, max) dwell minutes. -/
def DWELL_TIMES : List (String × (ℤ × ℤ)) :=
  [("bar", (60, 75)), ("pub", (60, 75)), ("karaoke", (75, 90)), ("bowling", (60, 90)),
   ("darts", (60, 90)), ("escape-room", (60, 75)), ("quiz", (90, 120)), ("arcade", (45, 75)),
   ("restaurant", (75, 90)), ("gastropub", (75, 90)), ("cafe", (45, 60)), ("cocktail", (60, 75)),
   ("live-music", (90, 120)), ("concert", (90, 150)), ("gig", (90, 120)), ("comedy", (75, 105)),
   ("museum", (60, 90)), ("gallery", (45, 75)), ("theatre", (120, 180)), ("default", (60, 75))]

/-- Association-list lookup, the semantics of dict indexing / `dict.get`. -/
def alist.lookup {κ α : Type} [DecidableEq κ] (k : κ) : List (κ × α) → Option α
  | [] => none
  | (k0, v) :: rest => if k = k0 then some v else alist.lookup k rest

/-! ### String helpers (models of the Python string operations used) -/

/-- `str.split(sep)` on a single separator character. -/
def splitOnChar (sep : Char) : List Char → List (List Char)
  | [] => [[]]
  | c :: rest =>
    let r := splitOnChar sep rest
    if c = sep then [] :: r
    else
      match r with
      | [] => [[c]]
      | g :: gs => (c :: g) :: gs

/-- Value of an unsigned decimal digit string, the happy path of
Python `int(...)`; `none` models the `ValueError` on other strings. -/
def digitsVal (l : List Char) : Option ℤ :=
  if l ≠ [] ∧ l.all Char.isDigit then
    some (l.foldl (fun acc c => acc * 10 + ((c.toNat : ℤ) - 48)) 0)
  else none

/-- Whether `p` is a prefix of `l`: Python `str.startswith`. -/
def startsWithCh : List Char → List Char → Bool
  | [], _ => true
  | _ :: _, [] => false
  | a :: as, b :: bs => if a = b then startsWithCh as bs else false

/-- ASCII `str.lower()` (the mood tags handled by the source are ASCII). -/
def pyLower (s : String) : String :=
  String.mk (s.data.map fun c =>
    if 65 ≤ c.toNat ∧ c.toNat ≤ 90 then Char.ofNat (c.toNat + 32) else c)

/-! ### Numeric helpers -/

/-- Python `min(a, b)` (ties keep the first argument). -/
def qmin (a b : ℚ) : ℚ := if a ≤ b then a else b

/-- Python `max(a, b)` (ties keep the first argument). -/
def qmax (a b : ℚ) : ℚ := if b ≤ a then a else b

/-- Floor of a rational as an integer (kernel-reducible). -/
def qfloor (x : ℚ) : ℤ := x.num.fdiv x.den

/-- Python `int(x)` on a float: truncation toward zero. -/
def pyInt (x : ℚ) : ℤ := if 0 ≤ x then qfloor x else -qfloor (-x)

/-- Round-half-to-even to an integer, the rounding of Python `round`. -/
def rhe (x : ℚ) : ℤ :=
  if x - (qfloor x : ℚ) < 1 / 2 then qfloor x
  else if 1 / 2 < x - (qfloor x : ℚ) then qfloor x + 1
  else if qfloor x % 2 = 0 then qfloor x else qfloor x + 1

/-- Python `round(x, 2)` on the exact value. -/
def round2 (x : ℚ) : ℚ := (rhe (x * 100) : ℚ) / 100

/-- Python `round(x, 1)` on the exact value. -/
def round1 (x : ℚ) : ℚ := (rhe (x * 10) : ℚ) / 10

/-- Python `f"{x:.0f}"`. -/
def fmtF0 (x : ℚ) : String :=
  let n := rhe x
  toString n

/-- Python `f"{x:.1f}"`. -/
def fmtF1 (x : ℚ) : String :=
  let n := rhe (x * 10)
  let sign := if n < 0 then "-" else ""
  sign ++ toString (n.natAbs / 10) ++ "." ++ toString (n.natAbs % 10)

/-! ### Time utilities (`parse_time`, `minutes_to_time`, `get_weekday`,
`time_overlaps`) -/

/-- `parse_time`: `"HH:MM"` to minutes since midnight; `Except` models the
`ValueError` on a string that does not split into two ints. -/
def parseTime (s : String) : Except String ℤ :=
  match splitOnChar ':' s.data with
  | [hs, ms] =>
    match digitsVal hs, digitsVal ms with
    | some h, some m => Except.ok (h * 60 + m)
    | _, _ => Except.error ("invalid literal for int()")
  | _ => Except.error ("cannot unpack time string")

/-- Zero-padded two-digit rendering, Python `f"{n:02d}"` for `0 ≤ n < 100`. -/
def pad2 (n : ℤ) : String :=
  if n < 10 then "0" ++ toString n else toString n

/-- `minutes_to_time`: minutes since midnight to `"HH:MM"`. -/
def minutesToTime (minutes : ℤ) : String :=
  let h := (minutes.fdiv 60) % 24
  let m := minutes % 60
  pad2 h ++ ":" ++ pad2 m

/-- Days since 1970-01-01 of a proleptic Gregorian date
(the standard days-from-civil computation used to model the ordering
and weekday of `datetime` values). -/
def daysFromCivil (y m d : ℤ) : ℤ :=
  let y1 := if m ≤ 2 then y - 1 else y
  let era := y1.fdiv 400
  let yoe := y1 - era * 400
  let doy := (153 * (m + (if 2 < m then -3 else 9)) + 2).fdiv 5 + d - 1
  let doe := yoe * 365 + yoe.fdiv 4 - yoe.fdiv 100 + doy
  era * 146097 + doe - 719468

/-- Leap-year test of the Gregorian calendar. -/
def isLeap (y : ℤ) : Bool := y % 4 = 0 ∧ (y % 100 ≠ 0 ∨ y % 400 = 0)

/-- Number of days in a month. -/
def daysInMonth (y m : ℤ) : ℤ :=
  if m = 2 then (if isLeap y then 29 else 28)
  else if m = 4 ∨ m = 6 ∨ m = 9 ∨ m = 11 then 30
  else 31

/-- Whether `datetime.strptime(date, "%Y-%m-%d")` succeeds on the date. -/
def dateValid (d : PyDate) : Bool :=
  1 ≤ d.month ∧ d.month ≤ 12 ∧ 1 ≤ d.day ∧ d.day ≤ daysInMonth d.year d.month

/-- `get_weekday`: weekday abbreviation of a date; `Except` models the
`ValueError` of `strptime` on an invalid date.  1970-01-01 was a Thursday. -/
def getWeekday (d : PyDate) : Except String String :=
  if dateValid d then
    Except.ok ((["Mon", "Tue", "Wed", "Thu", "Fri", "Sat", "Sun"].getD
      ((daysFromCivil d.year d.month d.day + 3) % 7).toNat ("Mon")))
  else Except.error ("time data does not match format")

/-- `time_overlaps`: half-open interval overlap. -/
def timeOverlaps (start1 end1 start2 end2 : ℤ) : Bool :=
  start1 < end2 ∧ start2 < end1

/-! ### datetime comparison -/

/-- Naive timestamp of an `IsoDT` in seconds (offset ignored). -/
def IsoDT.naiveSec (t : IsoDT) : ℤ :=
  daysFromCivil t.year t.month t.day * 86400 + t.hour * 3600 + t.minute * 60 + t.second

/-- `datetime.__lt__`: naive pairs compare by fields, aware pairs by UTC
instant, and a mixed pair raises
`TypeError: can't compare offset-naive and offset-aware datetimes`. -/
def dtLt (a b : IsoDT) : Except String Bool :=
  match a.tz, b.tz with
  | none, none => Except.ok (decide (a.naiveSec < b.naiveSec))
  | some oa, some ob => Except.ok (decide (a.naiveSec - oa * 60 < b.naiveSec - ob * 60))
  | _, _ => Except.error ("cannot compare offset-naive and offset-aware datetimes")

/-! ### Filtering (`is_time_compatible`, `soft_radius_filter`) -/

/-- `is_time_compatible`.  For an event: absent start or end timestamp is
falsy, giving `False`; otherwise the request window is placed on the
requested date (`strptime` + `replace`, each of which can raise) and the
half-open intervals are compared with `datetime` comparisons (which raise
on a naive/aware mix).  For a venue: any open block of the request's
weekday must overlap the window, overnight blocks wrapping by 1440;
missing or empty hour data is assumed open. -/
def isTimeCompatible (c : Candidate) (date : PyDate) (startMin endMin : ℤ) :
    Except String Bool :=
  if c.type = "event" then
    match c.start, c.endTime with
    | some es, some ee =>
      if ¬ dateValid date then Except.error ("time data does not match format")
      else
        let sh := startMin.fdiv 60
        let eh := endMin.fdiv 60
        if sh < 0 ∨ 23 < sh then Except.error ("hour must be in 0..23")
        else if eh < 0 ∨ 23 < eh then Except.error ("hour must be in 0..23")
        else
          let reqStart : IsoDT := ⟨date.year, date.month, date.day, sh, startMin % 60, 0, none⟩
          let reqEnd : IsoDT := ⟨date.year, date.month, date.day, eh, endMin % 60, 0, none⟩
          do
            let b1 ← dtLt es reqEnd
            if b1 then
              let b2 ← dtLt reqStart ee
              return b2
            else
              return false
    | _, _ => Except.ok false
  else
    match c.open_hours with
    | some oh =>
      if oh = [] then Except.ok true
      else do
        let weekday ← getWeekday date
        match alist.lookup weekday oh with
        | some blocks =>
          return blocks.any fun b =>
            let blockEnd := if b.2 < b.1 then b.2 + 24 * 60 else b.2
            timeOverlaps startMin endMin b.1 blockEnd
        | none => return true
    | none => Except.ok true

/-- `soft_radius_filter`: keep candidates within `1.5 ×` the preferred
radius. -/
def softRadiusFilter (candidates : List Candidate) (preferredKm : ℚ) : List Candidate :=
  candidates.filter fun c => decide (c.distance_km_from_center ≤ preferredKm * 1.5)

/-! ### Scoring -/

/-- Number of distinct categories that land in the desired set:
`len(set(categories) & desired)`. -/
def hitCount (categories desired : List String) : ℕ :=
  (categories.dedup.filter fun c => desired.contains c).length

/-- Loop body of `mood_match`: running maximum over the user's moods. -/
def moodLoop (categories : List String) : List String → ℚ → ℚ
  | [], acc => acc
  | mood :: rest, acc =>
    match alist.lookup (pyLower mood) MOOD_CATEGORY_MAP with
    | some desired =>
      let m := qmin 1 ((hitCount categories desired : ℚ) /
        ((if desired.length ≤ 1 then 1 else desired.length : ℕ) : ℚ))
      moodLoop categories rest (qmax acc m)
    | none => moodLoop categories rest acc

/-- `mood_match`: 0.6 with no moods, else the best overlap fraction,
with a 0.3 floor when every mood misses. -/
def moodMatch (userMoods categories : List String) : ℚ :=
  if userMoods = [] then 0.6
  else
    let mm := moodLoop categories userMoods 0
    if 0 < mm then mm else 0.3

/-- `estimate_cost_pp`.  A venue's truthy price tier is looked up with
default 12 (tier `0` is falsy and also yields 12); an event averages
min/max price, falls back to min alone, then to 15. -/
def estimateCostPp (c : Candidate) : ℚ :=
  if c.type = "venue" then
    match c.price_tier with
    | some t => if t ≠ 0 then (alist.lookup t PRICE_TIER_MAP).getD 12 else 12
    | none => 12
  else
    match c.price_min with
    | some pmin =>
      match c.price_max with
      | some pmax => (pmin + pmax) / 2
      | none => pmin
    | none => 15

/-- `price_fit`: 1 when within budget, else a soft linear penalty. -/
def priceFit (costPp budgetPp : ℚ) : ℚ :=
  if costPp ≤ budgetPp then 1
  else qmax 0 (1 - (costPp - budgetPp) / (budgetPp + 10))

/-- `rating_norm`: `rating/5` capped at 1, scaled by 0.85 when the review
count is truthy (present and nonzero) and below 30; 0.6 when the rating
is missing. -/
def ratingNorm (rating : Option ℚ) (reviews : Option ℤ) : ℚ :=
  match rating with
  | none => 0.6
  | some r =>
    let norm := r / 5
    let norm2 :=
      match reviews with
      | some n => if n ≠ 0 ∧ n < 30 then norm * 0.85 else norm
      | none => norm
    qmin 1 norm2

/-- `group_fit`: capacity ratio when a truthy capacity hint exists, else a
step function of the group size. -/
def groupFit (groupSize : ℤ) (capacityHint : Option ℤ) : ℚ :=
  let step : ℚ := if groupSize ≤ 12 then 0.75 else if groupSize ≤ 20 then 0.5 else 0.3
  match capacityHint with
  | some cap => if cap ≠ 0 then qmin 1 ((cap : ℚ) / ((groupSize : ℚ) * 1.2)) else step
  | none => step

/-- `distance_norm`: the closer the better. -/
def distanceNorm (distanceKm preferredKm : ℚ) : ℚ :=
  qmax 0 (1 - qmin (distanceKm / preferredKm) 1)

/-- `weather_fit`: 0.8 with no snapshot; else the first hourly record whose
time starts with `"HH:00"` (the request's start hour followed by `":00"`)
sets rain/temperature, defaulting to no rain at 10°C. -/
def weatherFit (weather : Option WeatherSnapshot) (_date : PyDate) (startTime : String)
    (c : Candidate) : ℚ :=
  match weather with
  | none => 0.8
  | some snap =>
    let hourStr := ((splitOnChar ':' startTime.data).headD []) ++ (":00").data
    let found := snap.hourly.find? fun h => startsWithCh hourStr h.time.data
    let isRain := (found.map WeatherHour.is_rain).getD false
    let temp := (found.map WeatherHour.temp_c).getD 10
    if isRain ∧ c.outdoor then 0.2
    else if isRain ∧ c.indoor then 1
    else if ¬ isRain ∧ c.outdoor ∧ 10 < temp then 1
    else 0.8

/-- `build_reasons`: up to four human-readable justification strings. -/
def buildReasons (comps : Components) (c : Candidate) (user : UserRequest) : List String :=
  let r1 : List String :=
    if 0.7 < comps.mood then ["fits mood: " ++ String.intercalate (", ") user.moods] else []
  let cost := estimateCostPp c
  let r2 : List String :=
    if cost < user.budget_per_person_gbp then
      ["under budget by £" ++ fmtF0 (user.budget_per_person_gbp - cost)]
    else if cost ≤ user.budget_per_person_gbp * 1.2 then ["within budget"] else []
  let r3 : List String :=
    match c.rating with
    | some r =>
      if r ≠ 0 ∧ 4.5 ≤ r then
        let reviewStr :=
          match c.reviews with
          | some n => if n ≠ 0 then " from " ++ toString n ++ " reviews" else ""
          | none => ""
        ["high rating (" ++ fmtF1 r ++ "/5" ++ reviewStr ++ ")"]
      else []
    | none => []
  let r4 : List String := if comps.weather = 1 ∧ c.indoor then ["indoor during rain"] else []
  let r5 : List String :=
    if c.distance_km_from_center < 1 then
      [toString (pyInt (c.distance_km_from_center * 12)) ++ " minutes walk from center"]
    else []
  (r1 ++ r2 ++ r3 ++ r4 ++ r5).take 4

/-! ### Stable sorting (model of Python `list.sort(key=...)`) -/

/-- Insert with ties going left: the element being inserted was earlier in
the original list than the sorted tail, so `le a b = true` keeps it first. -/
def insBy {α : Type} (le : α → α → Bool) (a : α) : List α → List α
  | [] => [a]
  | b :: l => if le a b then a :: b :: l else b :: insBy le a l

/-- Stable insertion sort.  For a total transitive `le` this is sorted and
stable, hence equal to the output of Python's (stable) `list.sort`. -/
def sortBy {α : Type} (le : α → α → Bool) : List α → List α
  | [] => []
  | a :: l => insBy le a (sortBy le l)

/-- One step of a lexicographic key chain: ascending on a rational key,
deferring ties to the continuation. -/
def keyStep (x y : ℚ) (k : Bool) : Bool :=
  if x < y then true else if y < x then false else k

/-- `keyStep` for an integer key. -/
def keyStepZ (x y : ℤ) (k : Bool) : Bool :=
  if x < y then true else if y < x then false else k

/-- Byte-wise (code-point) string comparison, Python `str` ordering. -/
def chLe : List Char → List Char → Bool
  | [], _ => true
  | _ :: _, [] => false
  | a :: as, b :: bs =>
    if a.toNat < b.toNat then true
    else if b.toNat < a.toNat then false
    else chLe as bs

/-- `≤` on names as Python compares them. -/
def strLe (a b : String) : Bool := chLe a.data b.data

/-- The sort key of `rank_activities`: score descending, review count
descending (missing = 0), distance ascending, name ascending. -/
def le4 (a b : RankedItem) : Bool :=
  keyStep b.score a.score
    (keyStepZ (b.item.reviews.getD 0) (a.item.reviews.getD 0)
      (keyStep a.item.distance_km_from_center b.item.distance_km_from_center
        (strLe a.item.name b.item.name)))

/-- The sort key of the re-sort inside `apply_diversity_penalty`: score
descending, review count descending, distance ascending — without the
name key. -/
def le3 (a b : RankedItem) : Bool :=
  keyStep b.score a.score
    (keyStepZ (b.item.reviews.getD 0) (a.item.reviews.getD 0)
      (keyStep a.item.distance_km_from_center b.item.distance_km_from_center true))

/-! ### Ranking -/

/-- The body of the scoring loop of `rank_activities` for one candidate:
six components (distance additionally dropped by 0.2, clamped at 0, in the
soft band), the weighted total, reasons, ETA and cost. -/
def scoreItem (user : UserRequest) (weather : Option WeatherSnapshot) (c : Candidate) :
    RankedItem :=
  let comps0 : Components :=
    { mood := moodMatch user.moods c.categories
      price := priceFit (estimateCostPp c) user.budget_per_person_gbp
      rating := ratingNorm c.rating c.reviews
      group := groupFit user.group_size c.capacity_hint
      distance := distanceNorm c.distance_km_from_center user.preferred_radius_km
      weather := weatherFit weather user.date user.start_time c }
  let comps :=
    if user.preferred_radius_km < c.distance_km_from_center then
      { comps0 with distance := qmax 0 (comps0.distance - 0.2) }
    else comps0
  let score := 30 * comps.mood + 20 * comps.price + 15 * comps.rating
    + 15 * comps.group + 10 * comps.distance + 10 * comps.weather
  { item := c
    score := score
    components := comps
    reasons := buildReasons comps c user
    eta_minutes_from_center := pyInt (c.distance_km_from_center * 12)
    estimated_cost_pp := estimateCostPp c }

/-- Effectful filter: a Python list comprehension whose predicate can
raise, stopping at the first error. -/
def exFilter {α : Type} (p : α → Except String Bool) : List α → Except String (List α)
  | [] => Except.ok []
  | a :: l => do
    let b ← p a
    let rest ← exFilter p l
    return if b then a :: rest else rest

/-- The primary (first-listed) category used by the diversity penalty. -/
def primaryCat (c : Candidate) : String := c.categories.headD ("other")

/-- The mutation pass of `apply_diversity_penalty`: walking the list in
order, the third-or-later occurrence of a primary category has its score
multiplied by 0.9 (each item is visited once, so at most one markdown). -/
def divLoop (count : String → ℕ) : List RankedItem → List RankedItem
  | [] => []
  | r :: rest =>
    let cat := primaryCat r.item
    let n := count cat + 1
    let count' : String → ℕ := fun s => if s = cat then n else count s
    let r' := if 2 < n then { r with score := r.score * 0.9 } else r
    r' :: divLoop count' rest

/-- `apply_diversity_penalty`: markdown pass followed by the re-sort on
the three-key chain. -/
def applyDiversityPenalty (ranked : List RankedItem) : List RankedItem :=
  sortBy le3 (divLoop (fun _ => 0) ranked)

/-- `rank_activities` up to (and including) the first sort: the filtered,
scored candidates in the four-key tie-break order, before the diversity
penalty. -/
def rankPre (user : UserRequest) (candidates : List Candidate)
    (weather : Option WeatherSnapshot) : Except String (List RankedItem) := do
  let startMin ← parseTime user.start_time
  let endMin := startMin + user.duration_minutes
  let compatible ← exFilter (fun c => isTimeCompatible c user.date startMin endMin) candidates
  let compatible := softRadiusFilter compatible user.preferred_radius_km
  let compatible := compatible.filter fun c =>
    decide (estimateCostPp c ≤ user.budget_per_person_gbp * 2)
  return sortBy le4 (compatible.map (scoreItem user weather))

/-- `rank_activities`: filter, score, sort, diversity penalty, truncate. -/
def rankActivities (user : UserRequest) (candidates : List Candidate)
    (weather : Option WeatherSnapshot) : Except String (List RankedItem) := do
  let ranked ← rankPre user candidates weather
  return (applyDiversityPenalty ranked).take user.max_results

/-! ### Itinerary construction -/

/-- `get_dwell_time`: first category with a dwell entry, else the default. -/
def getDwellTime (categories : List String) : ℤ × ℤ :=
  match categories.find? (fun cat => ((alist.lookup cat DWELL_TIMES).isSome : Bool)) with
  | some cat => (alist.lookup cat DWELL_TIMES).getD (60, 75)
  | none => (60, 75)

/-- The per-mood template lookups of `pick_templates`. -/
def moodTemplates (moods : List String) : List (List String) :=
  moods.filterMap fun mood => alist.lookup (pyLower mood) ITINERARY_TEMPLATES

/-- `pick_templates`: the template of each mood that has one, else one
default three-slot template. -/
def pickTemplates (moods : List String) : List (List String) :=
  if moodTemplates moods = [] then [["bar", "bar|karaoke|bowling", "bar"]]
  else moodTemplates moods

/-- `generate_itinerary_title`. -/
def generateItineraryTitle (_stops : List ItineraryStop) (moods : List String) : String :=
  let low := moods.map pyLower
  if low.contains ("karaoke") then "Karaoke night folks"
  else if low.contains ("competitive") then "Game on challenge!"
  else if low.contains ("chill") then "Relaxed evening out so just chill guys"
  else if low.contains ("culture") then "Cultural journey"
  else "Glasgow Night Out"

/-- Display rendering of a float for the `plan_b` note (Python shows e.g.
`3.0`; only the shape of the string, never its value, depends on this). -/
def pyFloatStr (x : ℚ) : String :=
  if x.den = 1 then toString x.num ++ ".0" else toString x.num ++ "/" ++ toString x.den

/-- Mutable state of the slot-filling loop of `try_build_template`. -/
structure BuildState where
  stops : List ItineraryStop
  currentTime : ℤ
  totalCost : ℚ
  totalWalk : ℤ
  lastLocation : Location
  usedIds : List String
  deriving Repr, DecidableEq, Inhabited

/-- The per-slot search of `try_build_template`: the first ranked item
that is unused, intersects the slot's alternative categories, and is
within walking limit of the previous stop. -/
def slotCandidate (distKm : Location → Location → ℚ) (user : UserRequest)
    (ranked : List RankedItem) (categories : List String) (st : BuildState) :
    Option RankedItem :=
  ranked.find? fun r =>
    ¬ st.usedIds.contains r.item.id ∧
    (categories.any fun cat => r.item.categories.contains cat) ∧
    pyInt (distKm st.lastLocation r.item.location * 12) ≤ user.max_walk_minutes_between_stops

/-- The body of the slot loop of `try_build_template` once a candidate
`r` has been chosen for slot `i` of a template of length `tlen`: walk to
it (for slots after the first), compute arrival and dwell (events
override both with their actual times), and append the stop, its cost
and its id to the state. -/
def slotStep (distKm : Location → Location → ℚ) (tlen : ℕ) (i : ℕ) (st : BuildState)
    (r : RankedItem) : BuildState :=
  let walkMin : ℤ :=
    if 0 < i then pyInt (distKm st.lastLocation r.item.location * 12) else 0
  let ct0 := st.currentTime + walkMin
  let totalWalk := st.totalWalk + walkMin
  let dw := getDwellTime r.item.categories
  let dwell0 := (dw.1 + dw.2).fdiv 2
  let timed : ℤ × ℤ :=
    if r.item.type = "event" then
      match r.item.start with
      | some es =>
        let ct1 := es.hour * 60 + es.minute
        match r.item.endTime with
        | some ee => (ct1, ee.hour * 60 + ee.minute - ct1)
        | none => (ct1, dwell0)
      | none => (ct0, dwell0)
    else (ct0, dwell0)
  let ct := timed.1
  let dwell := timed.2
  let walkToNext : ℤ := if i + 1 < tlen then 7 else 0
  let stop : ItineraryStop :=
    { id := r.item.id
      name := r.item.name
      arrive := minutesToTime ct
      depart := minutesToTime (ct + dwell)
      walk_minutes_to_next := walkToNext
      cost_pp := r.estimated_cost_pp }
  { stops := st.stops ++ [stop]
    currentTime := ct + dwell
    totalCost := st.totalCost + r.estimated_cost_pp
    totalWalk := totalWalk
    lastLocation := r.item.location
    usedIds := st.usedIds ++ [r.item.id] }

/-- The slot loop of `try_build_template` (index `i`, template length
`tlen`): an unfillable slot is skipped, a fillable one is applied via
`slotStep`. -/
def fillSlots (distKm : Location → Location → ℚ) (user : UserRequest)
    (ranked : List RankedItem) (tlen : ℕ) :
    List String → ℕ → BuildState → BuildState
  | [], _, st => st
  | slot :: rest, i, st =>
    match slotCandidate distKm user ranked ((splitOnChar '|' slot.data).map String.mk) st with
    | none => fillSlots distKm user ranked tlen rest (i + 1) st
    | some r => fillSlots distKm user ranked tlen rest (i + 1) (slotStep distKm tlen i st r)

/-- `try_build_template`: greedy slot filling, then acceptance (at least 2
stops, total cost within `1.2 ×` budget), titling and reason tags. -/
def tryBuildTemplate (distKm : Location → Location → ℚ) (user : UserRequest)
    (ranked : List RankedItem) (template : List String) :
    Except String (Option Itinerary) := do
  let ct0 ← parseTime user.start_time
  let init : BuildState :=
    { stops := []
      currentTime := ct0
      totalCost := 0
      totalWalk := 0
      lastLocation := user.center.getD ⟨55.858, -4.259⟩
      usedIds := [] }
  let st := fillSlots distKm user ranked template.length template 0 init
  if st.stops.length < 2 then return none
  else if user.budget_per_person_gbp * 1.2 < st.totalCost then return none
  else
    let title := generateItineraryTitle st.stops user.moods
    let r1 : List String :=
      if st.totalCost ≤ user.budget_per_person_gbp then ["within budget"]
      else if st.totalCost ≤ user.budget_per_person_gbp * 1.1 then ["slightly above budget"]
      else []
    let r2 : List String :=
      if st.totalWalk ≤ user.max_walk_minutes_between_stops * st.stops.length then
        ["short transfers"]
      else []
    let indoorCount := st.stops.countP fun s =>
      ranked.any fun r => r.item.id = s.id ∧ r.item.indoor
    let r3 : List String :=
      if (st.stops.length : ℚ) * 0.7 ≤ (indoorCount : ℚ) then ["mostly indoor"] else []
    let planB := "Alternative venues available within "
      ++ pyFloatStr user.preferred_radius_km ++ "km"
    return some
      { title := title
        stops := st.stops
        total_cost_pp := round2 st.totalCost
        total_walk_minutes := st.totalWalk
        reasons := (r1 ++ r2 ++ r3).take 3
        plan_b := planB }

/-- `build_itineraries`: try the first two templates, keeping the ones
that are accepted. -/
def buildItineraries (distKm : Location → Location → ℚ) (user : UserRequest)
    (ranked : List RankedItem) : Except String (List Itinerary) :=
  (pickTemplates user.moods).take 2 |>.foldlM
    (fun acc template => do
      let itin ← tryBuildTemplate distKm user ranked template
      return match itin with
      | some it => acc ++ [it]
      | none => acc)
    []

/-! ### Response assembly (`recommend`) -/

/-- Rounded component dict of a `top` entry. -/
def roundComponents (c : Components) : Components :=
  { mood := round2 c.mood, price := round2 c.price, rating := round2 c.rating
    group := round2 c.group, distance := round2 c.distance, weather := round2 c.weather }

/-- `recommend`: rank, build itineraries, and assemble the response.
The request id (`uuid4`) and generation timestamp (`utcnow`) are
nondeterministic in the source and are taken as parameters. -/
def recommend (distKm : Location → Location → ℚ) (user : UserRequest)
    (candidates : List Candidate) (weather : Option WeatherSnapshot)
    (requestId generatedAt : String) : Except String RecommendationResponse := do
  let ranked ← rankActivities user candidates weather
  let itineraries ← buildItineraries distKm user ranked
  let top := ranked.map (fun r =>
    { id := r.item.id
      name := r.item.name
      type := r.item.type
      score := round1 r.score
      reasons := r.reasons
      components := roundComponents r.components
      eta_minutes_from_center := r.eta_minutes_from_center
      estimated_cost_pp := round2 r.estimated_cost_pp : TopItem })
  return ⟨requestId, generatedAt, top, itineraries⟩

/-! ### Lemmas about the stable sort -/

theorem mem_insBy {α : Type} (le : α → α → Bool) (a x : α) (l : List α) :
    x ∈ insBy le a l ↔ x = a ∨ x ∈ l := by
  induction l with
  | nil => simp [insBy]
  | cons b t ih =>
    simp only [insBy]
    by_cases h : le a b = true
    · rw [if_pos h]
      simp [List.mem_cons]
    · rw [if_neg h]
      simp only [List.mem_cons, ih]
      tauto

theorem mem_sortBy {α : Type} (le : α → α → Bool) (x : α) (l : List α) :
    x ∈ sortBy le l ↔ x ∈ l := by
  induction l with
  | nil => simp [sortBy]
  | cons a t ih => simp [sortBy, mem_insBy, ih, List.mem_cons]

theorem insBy_perm {α : Type} (le : α → α → Bool) (a : α) (l : List α) :
    List.Perm (insBy le a l) (a :: l) := by
  induction l with
  | nil => simp [insBy]
  | cons b t ih =>
    simp only [insBy]
    by_cases h : le a b = true
    · rw [if_pos h]
    · rw [if_neg h]
      exact (List.Perm.cons b ih).trans (List.Perm.swap a b t)

theorem sortBy_perm {α : Type} (le : α → α → Bool) (l : List α) :
    List.Perm (sortBy le l) l := by
  induction l with
  | nil => simp [sortBy]
  | cons a t ih =>
    exact (insBy_perm le a (sortBy le t)).trans (List.Perm.cons a ih)

theorem pairwise_insBy {α : Type} (le : α → α → Bool)
    (total : ∀ x y, le x y = true ∨ le y x = true)
    (trans : ∀ x y z, le x y = true → le y z = true → le x z = true)
    (a : α) (l : List α)
    (h : l.Pairwise (fun x y => le x y = true)) :
    (insBy le a l).Pairwise (fun x y => le x y = true) := by
  induction l with
  | nil => simp [insBy]
  | cons b t ih =>
    rcases h with _ | ⟨hb, ht⟩
    simp only [insBy]
    by_cases hab : le a b = true
    · rw [if_pos hab]
      refine List.Pairwise.cons ?_ (List.Pairwise.cons hb ht)
      intro x hx
      rcases List.mem_cons.mp hx with rfl | hx
      · exact hab
      · exact trans a b x hab (hb x hx)
    · rw [if_neg hab]
      refine List.Pairwise.cons ?_ (ih ht)
      intro x hx
      rcases (mem_insBy le a x t).mp hx with rfl | hx
      · rcases total x b with h1 | h1
        · exact absurd h1 hab
        · exact h1
      · exact hb x hx

theorem pairwise_sortBy {α : Type} (le : α → α → Bool)
    (total : ∀ x y, le x y = true ∨ le y x = true)
    (trans : ∀ x y z, le x y = true → le y z = true → le x z = true)
    (l : List α) :
    (sortBy le l).Pairwise (fun x y => le x y = true) := by
  induction l with
  | nil => simp [sortBy]
  | cons a t ih => exact pairwise_insBy le total trans a (sortBy le t) ih

/-! ### The tie-break relations are total preorders -/

theorem chLe_total (a b : List Char) : chLe a b = true ∨ chLe b a = true := by
  induction a generalizing b with
  | nil => left; rfl
  | cons x xs ih =>
    cases b with
    | nil => right; rfl
    | cons y ys =>
      simp only [chLe]
      rcases Nat.lt_trichotomy x.toNat y.toNat with h | h | h
      · left
        rw [if_pos h]
      · rw [if_neg (by omega), if_neg (by omega), if_neg (by omega), if_neg (by omega)]
        exact ih ys
      · right
        rw [if_pos h]

theorem chLe_trans (a b c : List Char) (h1 : chLe a b = true) (h2 : chLe b c = true) :
    chLe a c = true := by
  induction a generalizing b c with
  | nil => rfl
  | cons x xs ih =>
    cases b with
    | nil => simp [chLe] at h1
    | cons y ys =>
      cases c with
      | nil => simp [chLe] at h2
      | cons z zs =>
        simp only [chLe] at h1 h2 ⊢
        rcases Nat.lt_trichotomy x.toNat y.toNat with hxy | hxy | hxy
        · rcases Nat.lt_trichotomy y.toNat z.toNat with hyz | hyz | hyz
          · rw [if_pos (by omega)]
          · rw [if_pos (by omega)]
          · rw [if_neg (by omega), if_pos hyz] at h2
            exact absurd h2 (by simp)
        · rcases Nat.lt_trichotomy y.toNat z.toNat with hyz | hyz | hyz
          · rw [if_pos (by omega)]
          · rw [if_neg (by omega), if_neg (by omega)]
            rw [if_neg (by omega), if_neg (by omega)] at h1
            rw [if_neg (by omega), if_neg (by omega)] at h2
            exact ih ys zs h1 h2
          · rw [if_neg (by omega), if_pos hyz] at h2
            exact absurd h2 (by simp)
        · rw [if_neg (by omega), if_pos hxy] at h1
          exact absurd h1 (by simp)

theorem strLe_total (a b : String) : strLe a b = true ∨ strLe b a = true :=
  chLe_total a.data b.data

theorem strLe_trans (a b c : String) (h1 : strLe a b = true) (h2 : strLe b c = true) :
    strLe a c = true :=
  chLe_trans a.data b.data c.data h1 h2

theorem keyStep_total (x y : ℚ) (k k' : Bool) (hk : k = true ∨ k' = true) :
    keyStep x y k = true ∨ keyStep y x k' = true := by
  unfold keyStep
  rcases lt_trichotomy x y with h | h | h
  · left
    rw [if_pos h]
  · rw [if_neg (by simp [h]), if_neg (by simp [h]), if_neg (by simp [h]), if_neg (by simp [h])]
    exact hk
  · right
    rw [if_pos h]

theorem keyStep_trans (x y z : ℚ) (k1 k2 k3 : Bool)
    (hk : k1 = true → k2 = true → k3 = true)
    (h1 : keyStep x y k1 = true) (h2 : keyStep y z k2 = true) :
    keyStep x z k3 = true := by
  unfold keyStep at h1 h2 ⊢
  rcases lt_trichotomy x y with hxy | hxy | hxy
  · rcases lt_trichotomy y z with hyz | hyz | hyz
    · rw [if_pos (hxy.trans hyz)]
    · subst hyz
      rw [if_pos hxy]
    · rw [if_neg (by simp [hyz, not_lt_of_gt hyz]), if_pos hyz] at h2
      exact absurd h2 (by simp)
  · subst hxy
    rcases lt_trichotomy x z with hyz | hyz | hyz
    · rw [if_pos hyz]
    · subst hyz
      rw [if_neg (lt_irrefl x), if_neg (lt_irrefl x)] at h1 h2 ⊢
      exact hk h1 h2
    · rw [if_neg (not_lt_of_gt hyz), if_pos hyz] at h2
      exact absurd h2 (by simp)
  · rw [if_neg (not_lt_of_gt hxy), if_pos hxy] at h1
    exact absurd h1 (by simp)

theorem keyStepZ_total (x y : ℤ) (k k' : Bool) (hk : k = true ∨ k' = true) :
    keyStepZ x y k = true ∨ keyStepZ y x k' = true := by
  unfold keyStepZ
  rcases lt_trichotomy x y with h | h | h
  · left
    rw [if_pos h]
  · rw [if_neg (by simp [h]), if_neg (by simp [h]), if_neg (by simp [h]), if_neg (by simp [h])]
    exact hk
  · right
    rw [if_pos h]

theorem keyStepZ_trans (x y z : ℤ) (k1 k2 k3 : Bool)
    (hk : k1 = true → k2 = true → k3 = true)
    (h1 : keyStepZ x y k1 = true) (h2 : keyStepZ y z k2 = true) :
    keyStepZ x z k3 = true := by
  unfold keyStepZ at h1 h2 ⊢
  rcases lt_trichotomy x y with hxy | hxy | hxy
  · rcases lt_trichotomy y z with hyz | hyz | hyz
    · rw [if_pos (hxy.trans hyz)]
    · subst hyz
      rw [if_pos hxy]
    · rw [if_neg (by omega), if_pos hyz] at h2
      exact absurd h2 (by simp)
  · subst hxy
    rcases lt_trichotomy x z with hyz | hyz | hyz
    · rw [if_pos hyz]
    · subst hyz
      rw [if_neg (lt_irrefl x), if_neg (lt_irrefl x)] at h1 h2 ⊢
      exact hk h1 h2
    · rw [if_neg (by omega), if_pos hyz] at h2
      exact absurd h2 (by simp)
  · rw [if_neg (by omega), if_pos hxy] at h1
    exact absurd h1 (by simp)

theorem le4_total (a b : RankedItem) : le4 a b = true ∨ le4 b a = true := by
  unfold le4
  apply keyStep_total
  rcases keyStepZ_total (b.item.reviews.getD 0) (a.item.reviews.getD 0)
    (keyStep a.item.distance_km_from_center b.item.distance_km_from_center
      (strLe a.item.name b.item.name))
    (keyStep b.item.distance_km_from_center a.item.distance_km_from_center
      (strLe b.item.name a.item.name))
    (by
      apply keyStep_total
      exact strLe_total a.item.name b.item.name) with h | h
  · left
    exact h
  · right
    exact h

theorem le4_trans (a b c : RankedItem) (h1 : le4 a b = true) (h2 : le4 b c = true) :
    le4 a c = true := by
  unfold le4 at h1 h2 ⊢
  refine keyStep_trans _ _ _ _ _ _ ?_ h2 h1
  intro g1 g2
  refine keyStepZ_trans _ _ _ _ _ _ ?_ g1 g2
  intro f1 f2
  refine keyStep_trans _ _ _ _ _ _ ?_ f2 f1
  intro e1 e2
  exact strLe_trans _ _ _ e1 e2

theorem le3_total (a b : RankedItem) : le3 a b = true ∨ le3 b a = true := by
  unfold le3
  apply keyStep_total
  rcases keyStepZ_total (b.item.reviews.getD 0) (a.item.reviews.getD 0)
    (keyStep a.item.distance_km_from_center b.item.distance_km_from_center true)
    (keyStep b.item.distance_km_from_center a.item.distance_km_from_center true)
    (by
      apply keyStep_total
      left
      rfl) with h | h
  · left
    exact h
  · right
    exact h

theorem le3_trans (a b c : RankedItem) (h1 : le3 a b = true) (h2 : le3 b c = true) :
    le3 a c = true := by
  unfold le3 at h1 h2 ⊢
  refine keyStep_trans _ _ _ _ _ _ ?_ h2 h1
  intro g1 g2
  refine keyStepZ_trans _ _ _ _ _ _ ?_ g1 g2
  intro f1 f2
  refine keyStep_trans _ _ _ _ _ _ ?_ f2 f1
  intro _ _
  rfl

/-! ### Frame lemmas for the ranking pipeline -/

theorem exFilter_mem {α : Type} (p : α → Except String Bool) (l out : List α)
    (h : exFilter p l = Except.ok out) :
    ∀ a ∈ out, a ∈ l ∧ p a = Except.ok true := by
  induction l generalizing out with
  | nil =>
    simp only [exFilter] at h
    cases h
    intro a ha
    exact absurd ha (List.not_mem_nil a)
  | cons x t ih =>
    simp only [exFilter, bind, Except.bind] at h
    cases hx : p x with
    | error e => rw [hx] at h; exact absurd h (by simp)
    | ok b =>
      rw [hx] at h
      cases hr : exFilter p t with
      | error e => rw [hr] at h; exact absurd h (by simp)
      | ok rest =>
        rw [hr] at h
        simp only [pure, Except.pure, Except.ok.injEq] at h
        intro a ha
        cases b with
        | true =>
          rw [← h] at ha
          rcases List.mem_cons.mp ha with rfl | ha
          · exact ⟨List.mem_cons_self a t, hx⟩
          · rcases ih rest hr a ha with ⟨h1, h2⟩
            exact ⟨List.mem_cons_of_mem x h1, h2⟩
        | false =>
          rw [← h] at ha
          rcases ih rest hr a ha with ⟨h1, h2⟩
          exact ⟨List.mem_cons_of_mem x h1, h2⟩

/-- Everything except the score survives `divLoop` unchanged; the score is
either untouched or marked down by exactly the factor 0.9. -/
theorem divLoop_frame (l : List RankedItem) (count : String → ℕ) :
    ∀ r' ∈ divLoop count l, ∃ r ∈ l,
      r'.item = r.item ∧ r'.components = r.components ∧ r'.reasons = r.reasons ∧
      r'.eta_minutes_from_center = r.eta_minutes_from_center ∧
      r'.estimated_cost_pp = r.estimated_cost_pp ∧
      (r'.score = r.score ∨ r'.score = r.score * 0.9) := by
  induction l generalizing count with
  | nil =>
    intro r' h
    exact absurd h (List.not_mem_nil r')
  | cons r t ih =>
    intro r' h
    simp only [divLoop] at h
    rcases List.mem_cons.mp h with rfl | h
    · by_cases hc : 2 < count (primaryCat r.item) + 1
      · rw [if_pos hc]
        exact ⟨r, List.mem_cons_self r t, rfl, rfl, rfl, rfl, rfl, Or.inr rfl⟩
      · rw [if_neg hc]
        exact ⟨r, List.mem_cons_self r t, rfl, rfl, rfl, rfl, rfl, Or.inl rfl⟩
    · rcases ih _ r' h with ⟨r0, hr0, he⟩
      exact ⟨r0, List.mem_cons_of_mem r hr0, he⟩

/-- Membership in the output of `applyDiversityPenalty` comes from the
input, up to the 0.9 markdown on the score. -/
theorem applyDiversityPenalty_frame (l : List RankedItem) :
    ∀ r' ∈ applyDiversityPenalty l, ∃ r ∈ l,
      r'.item = r.item ∧ r'.components = r.components ∧ r'.reasons = r.reasons ∧
      r'.eta_minutes_from_center = r.eta_minutes_from_center ∧
      r'.estimated_cost_pp = r.estimated_cost_pp ∧
      (r'.score = r.score ∨ r'.score = r.score * 0.9) := by
  intro r' h
  unfold applyDiversityPenalty at h
  exact divLoop_frame l (fun _ => 0) r' ((mem_sortBy le3 r' _).mp h)

/-- Every item of a successful `rankPre` is a scored surviving candidate:
it passed the time filter, the soft radius filter and the hard budget
filter, and is the image of `scoreItem`. -/
theorem rankPre_mem (user : UserRequest) (candidates : List Candidate)
    (weather : Option WeatherSnapshot) (l : List RankedItem)
    (h : rankPre user candidates weather = Except.ok l) :
    ∀ r ∈ l, ∃ c ∈ candidates, ∃ startMin,
      parseTime user.start_time = Except.ok startMin ∧
      r = scoreItem user weather c ∧
      isTimeCompatible c user.date startMin (startMin + user.duration_minutes) =
        Except.ok true ∧
      c.distance_km_from_center ≤ user.preferred_radius_km * 1.5 ∧
      estimateCostPp c ≤ user.budget_per_person_gbp * 2 := by
  unfold rankPre at h
  simp only [bind, Except.bind] at h
  cases hp : parseTime user.start_time with
  | error e => rw [hp] at h; exact absurd h (by simp)
  | ok startMin =>
    rw [hp] at h
    dsimp only at h
    cases hf : exFilter
        (fun c => isTimeCompatible c user.date startMin (startMin + user.duration_minutes))
        candidates with
    | error e => rw [hf] at h; exact absurd h (by simp)
    | ok compatible =>
      rw [hf] at h
      dsimp only at h
      simp only [pure, Except.pure, Except.ok.injEq] at h
      intro r hr
      rw [← h] at hr
      have hr2 := (mem_sortBy le4 r _).mp hr
      rcases List.mem_map.mp hr2 with ⟨c, hc, rfl⟩
      have hc2 := List.mem_filter.mp hc
      rcases hc2 with ⟨hc3, hbudget⟩
      simp only [softRadiusFilter] at hc3
      have hc4 := List.mem_filter.mp hc3
      rcases hc4 with ⟨hc5, hradius⟩
      rcases exFilter_mem _ _ _ hf c hc5 with ⟨hc6, htime⟩
      refine ⟨c, hc6, startMin, rfl, rfl, htime, ?_, ?_⟩
      · exact of_decide_eq_true hradius
      · exact of_decide_eq_true hbudget

/-- Every item of a successful `rankActivities` arises from a surviving
candidate, with the same frame as `rankPre` plus the possible diversity
markdown on the score. -/
theorem rankActivities_mem (user : UserRequest) (candidates : List Candidate)
    (weather : Option WeatherSnapshot) (l : List RankedItem)
    (h : rankActivities user candidates weather = Except.ok l) :
    l.length ≤ user.max_results ∧
    ∀ r ∈ l, ∃ c ∈ candidates, ∃ startMin,
      parseTime user.start_time = Except.ok startMin ∧
      r.item = c ∧
      isTimeCompatible c user.date startMin (startMin + user.duration_minutes) =
        Except.ok true ∧
      c.distance_km_from_center ≤ user.preferred_radius_km * 1.5 ∧
      estimateCostPp c ≤ user.budget_per_person_gbp * 2 := by
  unfold rankActivities at h
  simp only [bind, Except.bind] at h
  cases hp : rankPre user candidates weather with
  | error e => rw [hp] at h; exact absurd h (by simp)
  | ok pre =>
    rw [hp] at h
    dsimp only at h
    simp only [pure, Except.pure, Except.ok.injEq] at h
    constructor
    · rw [← h]
      exact (List.length_take _ _).trans_le (min_le_left _ _)
    · intro r hr
      rw [← h] at hr
      have hr1 : r ∈ applyDiversityPenalty pre := List.mem_of_mem_take hr
      rcases applyDiversityPenalty_frame pre r hr1 with ⟨r0, hr0, hitem, -, -, -, -, -⟩
      rcases rankPre_mem user candidates weather pre hp r0 hr0 with
        ⟨c, hc, startMin, hparse, hr0eq, htime, hrad, hbud⟩
      refine ⟨c, hc, startMin, hparse, ?_, htime, hrad, hbud⟩
      rw [hitem, hr0eq]
      rfl

/-! ### Concrete inputs used by witnesses and counterexamples -/

/-- The fallback city-center location of `try_build_template`. -/
def centerLoc : Location := ⟨55.858, -4.259⟩

/-- The distance function used to instantiate `distKm` at coincident
coordinates, where `haversine_distance` returns exactly 0. -/
def distZero : Location → Location → ℚ := fun _ _ => 0

/-- The round-trip request of §8 of the spec: 2025-11-15, 19:00, 180
minutes, 4 people, £25, karaoke mood, defaults elsewhere. -/
def reqKaraoke : UserRequest :=
  { date := ⟨2025, 11, 15⟩, start_time := "19:00", duration_minutes := 180,
    group_size := 4, budget_per_person_gbp := 25, moods := ["karaoke"] }

/-- The karaoke bar of the round-trip example: 0.8 km from center,
rating 4.7, price tier 2. -/
def barKaraoke : Candidate :=
  { id := "bar1", type := "venue", name := "Sing City", categories := ["karaoke", "bar"],
    location := centerLoc, distance_km_from_center := 0.8, indoor := true,
    price_tier := some 2, rating := some 4.7 }

/-- The event of the round-trip example: 10 km from center, overlapping
the requested window with naive timestamps (excluded by radius alone). -/
def eventFar : Candidate :=
  { id := "event1", type := "event", name := "Far Event", categories := ["concert"],
    location := ⟨55.9, -4.1⟩, distance_km_from_center := 10, indoor := true,
    start := some ⟨2025, 11, 15, 19, 30, 0, none⟩,
    endTime := some ⟨2025, 11, 15, 22, 0, 0, none⟩ }

/-- The ranked list of the round-trip example. -/
def rankedKaraoke : List RankedItem :=
  (rankActivities reqKaraoke [barKaraoke, eventFar] none).toOption.getD []

/-! ### C2 -/

/-- Claim C2: `rank_activities` returns at most `max_results` items, and
every returned item's candidate passed the three filters — it is
time-compatible with the `[start, start + duration)` window on the
requested date, within `1.5 ×` the preferred radius, and its estimated
per-person cost is at most `2 ×` the budget. -/
theorem rank_activities_cap_and_filters (user : UserRequest) (candidates : List Candidate)
    (weather : Option WeatherSnapshot) (l : List RankedItem)
    (h : rankActivities user candidates weather = Except.ok l) :
    l.length ≤ user.max_results ∧
    ∀ r ∈ l, ∃ startMin,
      parseTime user.start_time = Except.ok startMin ∧
      isTimeCompatible r.item user.date startMin (startMin + user.duration_minutes) =
        Except.ok true ∧
      r.item.distance_km_from_center ≤ user.preferred_radius_km * 1.5 ∧
      estimateCostPp r.item ≤ user.budget_per_person_gbp * 2 := by
  rcases rankActivities_mem user candidates weather l h with ⟨hlen, hmem⟩
  refine ⟨hlen, ?_⟩
  intro r hr
  rcases hmem r hr with ⟨c, _, startMin, hparse, hitem, htime, hrad, hbud⟩
  subst hitem
  exact ⟨startMin, hparse, htime, hrad, hbud⟩

/-- Witness for C2 at the round-trip example input. -/
theorem rank_activities_cap_and_filters_witness :
    rankActivities reqKaraoke [barKaraoke, eventFar] none = Except.ok rankedKaraoke ∧
    rankedKaraoke.length ≤ reqKaraoke.max_results :=
  ⟨by with_unfolding_all rfl,
   (rank_activities_cap_and_filters reqKaraoke [barKaraoke, eventFar] none rankedKaraoke
     (by with_unfolding_all rfl)).1⟩

/-! ### C3 -/

/-- The pre-penalty list of `rank_activities` is exactly a `sortBy le4` of
the scored candidates. -/
theorem rankPre_sorted (user : UserRequest) (candidates : List Candidate)
    (weather : Option WeatherSnapshot) (l : List RankedItem)
    (h : rankPre user candidates weather = Except.ok l) :
    l.Pairwise (fun a b => le4 a b = true) := by
  unfold rankPre at h
  simp only [bind, Except.bind] at h
  cases hp : parseTime user.start_time with
  | error e => rw [hp] at h; exact absurd h (by simp)
  | ok startMin =>
    rw [hp] at h
    dsimp only at h
    cases hf : exFilter
        (fun c => isTimeCompatible c user.date startMin (startMin + user.duration_minutes))
        candidates with
    | error e => rw [hf] at h; exact absurd h (by simp)
    | ok compatible =>
      rw [hf] at h
      dsimp only at h
      simp only [pure, Except.pure, Except.ok.injEq] at h
      rw [← h]
      exact pairwise_sortBy le4 le4_total le4_trans _

/-- Claim C3 (amended): the ranked list is sorted by the full four-key
chain (score desc, reviews desc with missing = 0, distance asc, name asc)
immediately before the diversity penalty; the final returned order is
sorted by the three-key chain (score desc, reviews desc, distance asc) —
the re-sort after the penalty does not reapply the name key. -/
theorem rank_sort_orders (user : UserRequest) (candidates : List Candidate)
    (weather : Option WeatherSnapshot) (pre fin : List RankedItem)
    (hpre : rankPre user candidates weather = Except.ok pre)
    (hfin : rankActivities user candidates weather = Except.ok fin) :
    pre.Pairwise (fun a b => le4 a b = true) ∧
    fin.Pairwise (fun a b => le3 a b = true) := by
  refine ⟨rankPre_sorted user candidates weather pre hpre, ?_⟩
  unfold rankActivities at hfin
  simp only [bind, Except.bind] at hfin
  rw [hpre] at hfin
  dsimp only at hfin
  simp only [pure, Except.pure, Except.ok.injEq] at hfin
  rw [← hfin]
  refine List.Pairwise.sublist (List.take_sublist _ _) ?_
  unfold applyDiversityPenalty
  exact pairwise_sortBy le3 le3_total le3_trans _

/-- The first tied bar (rating 5) of the C3 counterexample. -/
def barTop1 : Candidate :=
  { id := "b1", type := "venue", name := "B1",
    categories := ["bar", "karaoke", "private-rooms", "singing"],
    location := centerLoc, distance_km_from_center := 0, indoor := true, rating := some 5 }

/-- The second tied bar (rating 5) of the C3 counterexample. -/
def barTop2 : Candidate :=
  { id := "b2", type := "venue", name := "B2",
    categories := ["bar", "karaoke", "private-rooms", "singing"],
    location := centerLoc, distance_km_from_center := 0, indoor := true, rating := some 5 }

/-- The third `bar`-primary candidate: its score 88.25 is marked down by
the diversity penalty to 79.425. -/
def barPenalized : Candidate :=
  { id := "x", type := "venue", name := "Zed",
    categories := ["bar", "karaoke", "private-rooms", "singing"],
    location := centerLoc, distance_km_from_center := 0, indoor := true, rating := none }

/-- A `karaoke`-primary candidate whose score is exactly 79.425 (rating
7/120), tying the penalized score with an alphabetically earlier name. -/
def karaokeTie : Candidate :=
  { id := "y", type := "venue", name := "Alpha",
    categories := ["karaoke", "bar", "private-rooms", "singing"],
    location := centerLoc, distance_km_from_center := 0, indoor := true,
    rating := some (7 / 120) }

/-- The final ranked list of the C3 counterexample input. -/
def rankedDiv : List RankedItem :=
  (rankActivities reqKaraoke [barTop1, barTop2, barPenalized, karaokeTie] none).toOption.getD []

/-- Counterexample to claim C3 as stated: after the diversity penalty the
returned order is `B1, B2, Zed, Alpha` where `Zed` and `Alpha` tie on
score (79.425), reviews and distance, yet `Zed` precedes `Alpha` — the
final order violates the name-ascending key of the four-key chain. -/
theorem rank_sort_name_key_cex :
    rankActivities reqKaraoke [barTop1, barTop2, barPenalized, karaokeTie] none =
      Except.ok rankedDiv ∧
    ¬ rankedDiv.Pairwise (fun a b => le4 a b = true) := by
  constructor
  · with_unfolding_all rfl
  · intro h
    have h2 : rankedDiv.map (fun r => r.item.name) = ["B1", "B2", "Zed", "Alpha"] := by
      with_unfolding_all rfl
    revert h2
    cases hd : rankedDiv with
    | nil => simp
    | cons a t =>
      cases t with
      | nil => simp
      | cons b t2 =>
        cases t2 with
        | nil => simp
        | cons c t3 =>
          cases t3 with
          | nil => simp
          | cons d t4 =>
            cases t4 with
            | cons e t5 => simp
            | nil =>
              intro h2
              rw [hd] at h
              rcases h with _ | ⟨_, _ | ⟨_, _ | ⟨hcd, _⟩⟩⟩
              have hcd2 := hcd d (List.mem_cons_self d [])
              have hname : le4 c d = true → False := by
                have hc : c = rankedDiv.getD 2 default := by
                  rw [hd]
                  rfl
                have hdv : d = rankedDiv.getD 3 default := by
                  rw [hd]
                  rfl
                rw [hc, hdv]
                with_unfolding_all decide
              exact hname hcd2

/-- The pre-penalty list of the C3 counterexample input. -/
def preDiv : List RankedItem :=
  (rankPre reqKaraoke [barTop1, barTop2, barPenalized, karaokeTie] none).toOption.getD []

/-- Witness for the amended C3 at the counterexample input: the
pre-penalty list is sorted by the four-key chain and the final list by
the three-key chain. -/
theorem rank_sort_orders_witness :
    rankPre reqKaraoke [barTop1, barTop2, barPenalized, karaokeTie] none =
      Except.ok preDiv ∧
    preDiv.Pairwise (fun a b => le4 a b = true) ∧
    rankedDiv.Pairwise (fun a b => le3 a b = true) := by
  refine ⟨by with_unfolding_all rfl, ?_, ?_⟩
  · exact (rank_sort_orders reqKaraoke [barTop1, barTop2, barPenalized, karaokeTie] none
      preDiv rankedDiv (by with_unfolding_all rfl) (by with_unfolding_all rfl)).1
  · exact (rank_sort_orders reqKaraoke [barTop1, barTop2, barPenalized, karaokeTie] none
      preDiv rankedDiv (by with_unfolding_all rfl) (by with_unfolding_all rfl)).2

/-! ### C7 -/

/-- Counterexample to claim C7 as stated: a candidate with a known rating
of 5 and a review count of 0 receives `rating_norm = 1`, not the claimed
0.85 confidence discount — `0` is falsy in `if reviews and reviews < 30`,
so a zero review count is treated like a missing one. -/
theorem rating_norm_zero_reviews_cex :
    ratingNorm (some 5) (some 0) = 1 ∧ (1 : ℚ) ≠ 0.85 := by
  constructor
  · with_unfolding_all rfl
  · with_unfolding_all decide

/-- Claim C7 (amended): the rating component is `rating/5` capped at 1,
multiplied by 0.85 exactly when the review count is present, nonzero and
below 30; a review count of 0 (like a missing one) gets no discount; a
missing rating yields 0.6. -/
theorem rating_norm_behaviour (r : ℚ) (reviews : Option ℤ) :
    ratingNorm none reviews = 0.6 ∧
    ratingNorm (some r) reviews =
      (if reviews.getD 0 ≠ 0 ∧ reviews.getD 0 < 30
        then qmin 1 (r / 5 * 0.85) else qmin 1 (r / 5)) := by
  refine ⟨rfl, ?_⟩
  unfold ratingNorm
  cases reviews with
  | none => simp
  | some n =>
    simp only [Option.getD]
    by_cases h : n ≠ 0 ∧ n < 30
    · rw [if_pos h, if_pos h]
    · rw [if_neg h, if_neg h]

/-! ### C8 -/

/-- Counterexample to claim C8 as stated: with a single hourly record
timed "19:30" flagged as rain and an outdoor candidate at a 19:00 start,
the claim predicts 0.2 (rain + outdoor), but the lookup prefix is
"19:00" — "19:30" does not match it — so the no-rain default applies and
the result is 0.8. -/
theorem weather_fit_prefix_cex :
    weatherFit (some ⟨⟨2025, 11, 15⟩, [⟨"19:30", 20, 5, true⟩]⟩) ⟨2025, 11, 15⟩ ("19:00")
      { id := "o", type := "venue", name := "Open Air", categories := ["bar"],
        location := centerLoc, distance_km_from_center := 0,
        indoor := false, outdoor := true } = 0.8 ∧
    (0.8 : ℚ) ≠ 0.2 := by
  constructor
  · with_unfolding_all rfl
  · with_unfolding_all decide

/-- The outcome table of the amended claim C8: 0.2 for rain + outdoor,
1.0 for rain + indoor, 1.0 for no rain + outdoor + temperature above
10°C, else 0.8. -/
def weatherTable (isRain : Bool) (temp : ℚ) (c : Candidate) : ℚ :=
  if isRain ∧ c.outdoor then 0.2
  else if isRain ∧ c.indoor then 1
  else if ¬ isRain ∧ c.outdoor ∧ 10 < temp then 1
  else 0.8

/-- The hourly lookup as the amended claim C8 describes it: the first
record whose time starts with the start hour followed by `":00"`, or the
10°C / no-rain defaults when nothing matches. -/
def weatherFitAmendedSpec (weather : Option WeatherSnapshot) (startTime : String)
    (c : Candidate) : ℚ :=
  match weather with
  | none => 0.8
  | some snap =>
    let hourPrefix := ((splitOnChar ':' startTime.data).headD []) ++ (":00").data
    match snap.hourly.find? (fun h => startsWithCh hourPrefix h.time.data) with
    | some h => weatherTable h.is_rain h.temp_c c
    | none => weatherTable false 10 c

/-- Claim C8 (amended): `weather_fit` agrees everywhere with the amended
description — hour matching is a prefix match on `"HH:00"`, not on
`"HH"`. -/
theorem weather_fit_behaviour (weather : Option WeatherSnapshot) (date : PyDate)
    (startTime : String) (c : Candidate) :
    weatherFit weather date startTime c = weatherFitAmendedSpec weather startTime c := by
  unfold weatherFit weatherFitAmendedSpec
  cases weather with
  | none => rfl
  | some snap =>
    cases hfind : snap.hourly.find?
        (fun h => startsWithCh (((splitOnChar ':' startTime.data).headD []) ++ (":00").data)
          h.time.data) with
    | some h =>
      simp only [hfind, Option.map, Option.getD, weatherTable]
    | none =>
      simp only [hfind, Option.map, Option.getD, weatherTable]

/-! ### C6 -/

/-- Demonstration for claim C6: on an event whose start and end carry the
`Z` suffix (after `.replace('Z', '+00:00')` they parse as offset-aware
datetimes with `tz = +00:00`), `is_time_compatible` does not return a
boolean — the comparison of the aware event time with the naive request
time raises `TypeError: can't compare offset-naive and offset-aware
datetimes`.  The claim (and the spec's "UTC-normalized instants" and
"never raises" language) is the evident intent — the very purpose of the
`Z` replacement — so this is a bug in the code, not in the claim. -/
theorem is_time_compatible_aware_raises :
    isTimeCompatible
      { id := "ez", type := "event", name := "Z Event", categories := ["concert"],
        location := centerLoc, distance_km_from_center := 1, indoor := true,
        start := some ⟨2025, 11, 15, 19, 0, 0, some 0⟩,
        endTime := some ⟨2025, 11, 15, 21, 0, 0, some 0⟩ }
      ⟨2025, 11, 15⟩ 1140 1320 =
      Except.error ("cannot compare offset-naive and offset-aware datetimes") := by
  with_unfolding_all rfl

/-! ### C9 -/

/-- On an empty ranked list no slot of any template can be filled, so
`try_build_template` returns `None`. -/
theorem tryBuildTemplate_empty (distKm : Location → Location → ℚ) (user : UserRequest)
    (template : List String) (t0 : ℤ) (hp : parseTime user.start_time = Except.ok t0) :
    tryBuildTemplate distKm user [] template = Except.ok none := by
  unfold tryBuildTemplate
  simp only [bind, Except.bind, hp]
  have hfill : ∀ (slots : List String) (i : ℕ) (st : BuildState),
      fillSlots distKm user [] template.length slots i st = st := by
    intro slots
    induction slots with
    | nil => intro i st; rfl
    | cons s rest ih =>
      intro i st
      simp only [fillSlots, slotCandidate, List.find?]
      exact ih (i + 1) st
  rw [hfill]
  rfl

/-- On an empty ranked list every template is rejected, so
`build_itineraries` returns the empty list. -/
theorem buildItineraries_empty (distKm : Location → Location → ℚ) (user : UserRequest)
    (t0 : ℤ) (hp : parseTime user.start_time = Except.ok t0) :
    buildItineraries distKm user [] = Except.ok [] := by
  unfold buildItineraries
  have hfold : ∀ (templates : List (List String)) (acc : List Itinerary),
      templates.foldlM
        (fun acc template => do
          let itin ← tryBuildTemplate distKm user [] template
          return match itin with
          | some it => acc ++ [it]
          | none => acc)
        acc = Except.ok acc := by
    intro templates
    induction templates with
    | nil => intro acc; rfl
    | cons t rest ih =>
      intro acc
      simp only [List.foldlM, bind, Except.bind, tryBuildTemplate_empty distKm user t t0 hp]
      exact ih acc
  exact hfold _ []

/-- Claim C9: for a well-formed request (one whose start time parses),
`recommend` on an empty candidate list returns normally with an empty
ranked list and zero itineraries. -/
theorem recommend_empty_candidates (distKm : Location → Location → ℚ) (user : UserRequest)
    (weather : Option WeatherSnapshot) (requestId generatedAt : String) (t0 : ℤ)
    (hp : parseTime user.start_time = Except.ok t0) :
    recommend distKm user [] weather requestId generatedAt =
      Except.ok ⟨requestId, generatedAt, [], []⟩ := by
  have hrank : rankActivities user [] weather = Except.ok [] := by
    unfold rankActivities rankPre
    simp only [bind, Except.bind, hp, exFilter, softRadiusFilter, List.filter_nil,
      List.map_nil, sortBy, applyDiversityPenalty, divLoop, List.take_nil, pure, Except.pure]
  unfold recommend
  simp only [bind, Except.bind, hrank]
  rw [buildItineraries_empty distKm user t0 hp]
  rfl

/-- Witness for C9 at a concrete request. -/
theorem recommend_empty_candidates_witness :
    parseTime reqKaraoke.start_time = Except.ok 1140 ∧
    recommend distZero reqKaraoke [] none ("rid") ("t0") =
      Except.ok ⟨"rid", "t0", [], []⟩ :=
  ⟨by with_unfolding_all rfl,
   recommend_empty_candidates distZero reqKaraoke none ("rid") ("t0") 1140
     (by with_unfolding_all rfl)⟩

/-! ### C10 -/

/-- Claim C10: the engine never alters candidate data.  The diversity
penalty produces ranked items whose every field except the score is that
of an input item (the score at worst marked down once by 0.9), and every
candidate record reachable from a `rank_activities` result is one of the
input candidate records, unchanged. -/
theorem candidates_never_mutated :
    (∀ (l : List RankedItem), ∀ r' ∈ applyDiversityPenalty l, ∃ r ∈ l,
      r'.item = r.item ∧ r'.components = r.components ∧ r'.reasons = r.reasons ∧
      r'.eta_minutes_from_center = r.eta_minutes_from_center ∧
      r'.estimated_cost_pp = r.estimated_cost_pp ∧
      (r'.score = r.score ∨ r'.score = r.score * 0.9)) ∧
    (∀ (user : UserRequest) (candidates : List Candidate)
      (weather : Option WeatherSnapshot) (l : List RankedItem),
      rankActivities user candidates weather = Except.ok l →
      ∀ r ∈ l, r.item ∈ candidates) := by
  constructor
  · exact applyDiversityPenalty_frame
  · intro user candidates weather l h r hr
    rcases (rankActivities_mem user candidates weather l h).2 r hr with
      ⟨c, hc, _, _, hitem, _⟩
    rw [hitem]
    exact hc

/-- Witness for C10 at the round-trip example input: the single ranked
item's candidate record is the input bar record itself. -/
theorem candidates_never_mutated_witness :
    rankActivities reqKaraoke [barKaraoke, eventFar] none = Except.ok rankedKaraoke ∧
    ∀ r ∈ rankedKaraoke, r.item ∈ [barKaraoke, eventFar] := by
  refine ⟨by with_unfolding_all rfl, ?_⟩
  exact candidates_never_mutated.2 reqKaraoke [barKaraoke, eventFar] none rankedKaraoke
    (by with_unfolding_all rfl)

/-! ### C4 -/

theorem qmin_bounds (a b : ℚ) (h1 : 0 ≤ a) (h2 : 0 ≤ b) :
    0 ≤ qmin a b ∧ qmin a b ≤ a ∧ qmin a b ≤ b := by
  unfold qmin
  split_ifs with h
  · exact ⟨h1, le_refl a, h⟩
  · exact ⟨h2, le_of_not_le h, le_refl b⟩

theorem qmax_bounds (a b : ℚ) (ha : 0 ≤ a) :
    0 ≤ qmax a b ∧ (b ≤ a → qmax a b = a) ∧ (qmax a b = a ∨ qmax a b = b) := by
  unfold qmax
  split_ifs with h
  · exact ⟨ha, fun _ => rfl, Or.inl rfl⟩
  · exact ⟨le_of_lt (lt_of_le_of_lt ha (lt_of_not_le h)), fun hb => absurd hb h, Or.inr rfl⟩

theorem qmax_unit (a b : ℚ) (ha : 0 ≤ a ∧ a ≤ 1) (hb : 0 ≤ b ∧ b ≤ 1) :
    0 ≤ qmax a b ∧ qmax a b ≤ 1 := by
  unfold qmax
  split_ifs
  · exact ha
  · exact hb

theorem moodLoop_bounds (categories moods : List String) (acc : ℚ)
    (hacc : 0 ≤ acc ∧ acc ≤ 1) :
    0 ≤ moodLoop categories moods acc ∧ moodLoop categories moods acc ≤ 1 := by
  induction moods generalizing acc with
  | nil => exact hacc
  | cons m rest ih =>
    simp only [moodLoop]
    cases alist.lookup (pyLower m) MOOD_CATEGORY_MAP with
    | none => exact ih acc hacc
    | some desired =>
      apply ih
      apply qmax_unit acc _ hacc
      have hq : (0 : ℚ) ≤ (hitCount categories desired : ℚ) /
          ((if desired.length ≤ 1 then 1 else desired.length : ℕ) : ℚ) := by
        apply div_nonneg
        · exact Nat.cast_nonneg _
        · exact Nat.cast_nonneg _
      rcases qmin_bounds 1 _ (by norm_num) hq with ⟨h1, h2, h3⟩
      exact ⟨h1, h2⟩

theorem moodMatch_bounds (moods categories : List String) :
    0 ≤ moodMatch moods categories ∧ moodMatch moods categories ≤ 1 := by
  unfold moodMatch
  by_cases h1 : moods = []
  · rw [if_pos h1]
    norm_num
  · rw [if_neg h1]
    dsimp only
    by_cases h2 : 0 < moodLoop categories moods 0
    · rw [if_pos h2]
      exact moodLoop_bounds categories moods 0 ⟨le_refl 0, by norm_num⟩
    · rw [if_neg h2]
      norm_num

theorem priceFit_bounds (cost budget : ℚ) (hb : 0 ≤ budget) :
    0 ≤ priceFit cost budget ∧ priceFit cost budget ≤ 1 := by
  unfold priceFit qmax
  split_ifs with h1 h2
  · norm_num
  · norm_num
  · have hov : 0 ≤ cost - budget := by linarith [lt_of_not_le h1]
    have hpen : 0 ≤ (cost - budget) / (budget + 10) := div_nonneg hov (by linarith)
    constructor
    · linarith [lt_of_not_le h2]
    · linarith

theorem ratingNorm_bounds (rating : Option ℚ) (reviews : Option ℤ)
    (hr : ∀ r, rating = some r → 0 ≤ r ∧ r ≤ 5) :
    0 ≤ ratingNorm rating reviews ∧ ratingNorm rating reviews ≤ 1 := by
  unfold ratingNorm
  cases rating with
  | none => norm_num
  | some r =>
    rcases hr r rfl with ⟨h0, h5⟩
    have hnorm : 0 ≤ r / 5 := by positivity
    have hn2 : (0 : ℚ) ≤ (match reviews with
        | some n => if n ≠ 0 ∧ n < 30 then r / 5 * 0.85 else r / 5
        | none => r / 5) := by
      cases reviews with
      | none => exact hnorm
      | some n =>
        dsimp only
        split_ifs
        · positivity
        · exact hnorm
    rcases qmin_bounds 1 _ (by norm_num) hn2 with ⟨hq0, hq1, _⟩
    exact ⟨hq0, hq1⟩

theorem groupFit_bounds (groupSize : ℤ) (capacityHint : Option ℤ)
    (hg : 1 ≤ groupSize) (hcap : ∀ k, capacityHint = some k → 0 ≤ k) :
    0 ≤ groupFit groupSize capacityHint ∧ groupFit groupSize capacityHint ≤ 1 := by
  unfold groupFit
  have hstep : 0 ≤ (if groupSize ≤ 12 then (0.75 : ℚ)
      else if groupSize ≤ 20 then 0.5 else 0.3) ∧
      (if groupSize ≤ 12 then (0.75 : ℚ) else if groupSize ≤ 20 then 0.5 else 0.3) ≤ 1 := by
    split_ifs <;> norm_num
  cases capacityHint with
  | none => exact hstep
  | some k =>
    dsimp only
    by_cases hk : k ≠ 0
    · rw [if_pos hk]
      have hkpos : (0 : ℚ) ≤ (k : ℚ) / ((groupSize : ℚ) * 1.2) := by
        apply div_nonneg
        · exact_mod_cast hcap k rfl
        · have h1 : (1 : ℚ) ≤ (groupSize : ℚ) := by exact_mod_cast hg
          nlinarith
      rcases qmin_bounds 1 _ (by norm_num) hkpos with ⟨h0, h1, _⟩
      exact ⟨h0, h1⟩
    · rw [if_neg hk]
      exact hstep

theorem distanceNorm_bounds (d p : ℚ) (hd : 0 ≤ d) (hp : 0 < p) :
    0 ≤ distanceNorm d p ∧ distanceNorm d p ≤ 1 := by
  unfold distanceNorm qmax qmin
  have hdp : 0 ≤ d / p := div_nonneg hd (le_of_lt hp)
  split_ifs with h1 h2 h2 <;> constructor <;> linarith

theorem weatherFit_bounds (weather : Option WeatherSnapshot) (date : PyDate)
    (startTime : String) (c : Candidate) :
    0 ≤ weatherFit weather date startTime c ∧ weatherFit weather date startTime c ≤ 1 := by
  unfold weatherFit
  cases weather with
  | none => norm_num
  | some snap =>
    dsimp only
    split_ifs <;> norm_num

/-- The component and score bounds of one `scoreItem` result. -/
theorem scoreItem_bounds (user : UserRequest) (weather : Option WeatherSnapshot)
    (c : Candidate)
    (hbudget : 0 ≤ user.budget_per_person_gbp) (hradius : 0 < user.preferred_radius_km)
    (hgroup : 1 ≤ user.group_size)
    (hrating : ∀ x, c.rating = some x → 0 ≤ x ∧ x ≤ 5)
    (hdist : 0 ≤ c.distance_km_from_center)
    (hcap : ∀ k, c.capacity_hint = some k → 0 ≤ k) :
    (0 ≤ (scoreItem user weather c).components.mood ∧
      (scoreItem user weather c).components.mood ≤ 1) ∧
    (0 ≤ (scoreItem user weather c).components.price ∧
      (scoreItem user weather c).components.price ≤ 1) ∧
    (0 ≤ (scoreItem user weather c).components.rating ∧
      (scoreItem user weather c).components.rating ≤ 1) ∧
    (0 ≤ (scoreItem user weather c).components.group ∧
      (scoreItem user weather c).components.group ≤ 1) ∧
    (0 ≤ (scoreItem user weather c).components.distance ∧
      (scoreItem user weather c).components.distance ≤ 1) ∧
    (0 ≤ (scoreItem user weather c).components.weather ∧
      (scoreItem user weather c).components.weather ≤ 1) ∧
    (0 ≤ (scoreItem user weather c).score ∧ (scoreItem user weather c).score ≤ 100) := by
  have hmood := moodMatch_bounds user.moods c.categories
  have hprice := priceFit_bounds (estimateCostPp c) user.budget_per_person_gbp hbudget
  have hrate := ratingNorm_bounds c.rating c.reviews hrating
  have hgrp := groupFit_bounds user.group_size c.capacity_hint hgroup hcap
  have hdn := distanceNorm_bounds c.distance_km_from_center user.preferred_radius_km
    hdist hradius
  have hwf := weatherFit_bounds weather user.date user.start_time c
  unfold scoreItem
  simp only
  split_ifs with hfar
  · simp only
    have hadj : 0 ≤ qmax 0
        (distanceNorm c.distance_km_from_center user.preferred_radius_km - 0.2) ∧
        qmax 0 (distanceNorm c.distance_km_from_center user.preferred_radius_km - 0.2) ≤ 1 := by
      unfold qmax
      split_ifs with h
      · constructor
        · norm_num
        · norm_num
      · constructor
        · linarith [hdn.1]
        · linarith [hdn.2]
    refine ⟨hmood, hprice, hrate, hgrp, hadj, hwf, ?_, ?_⟩
    · nlinarith [hmood.1, hprice.1, hrate.1, hgrp.1, hadj.1, hwf.1]
    · nlinarith [hmood.2, hprice.2, hrate.2, hgrp.2, hadj.2, hwf.2,
        hmood.1, hprice.1, hrate.1, hgrp.1, hadj.1, hwf.1]
  · simp only
    refine ⟨hmood, hprice, hrate, hgrp, hdn, hwf, ?_, ?_⟩
    · nlinarith [hmood.1, hprice.1, hrate.1, hgrp.1, hdn.1, hwf.1]
    · nlinarith [hmood.2, hprice.2, hrate.2, hgrp.2, hdn.2, hwf.2,
        hmood.1, hprice.1, hrate.1, hgrp.1, hdn.1, hwf.1]

/-- All six stored components lie in the unit interval and the total
score in `[0, 100]`. -/
def scoreInRange (r : RankedItem) : Prop :=
  (0 ≤ r.components.mood ∧ r.components.mood ≤ 1) ∧
  (0 ≤ r.components.price ∧ r.components.price ≤ 1) ∧
  (0 ≤ r.components.rating ∧ r.components.rating ≤ 1) ∧
  (0 ≤ r.components.group ∧ r.components.group ≤ 1) ∧
  (0 ≤ r.components.distance ∧ r.components.distance ≤ 1) ∧
  (0 ≤ r.components.weather ∧ r.components.weather ≤ 1) ∧
  (0 ≤ r.score ∧ r.score ≤ 100)

/-- Claim C4: for a well-formed request (nonnegative budget, positive
radius, group of at least one ­— §3's data-model invariants) and
candidates with rating in `[0, 5]`, nonnegative distance and capacity,
every ranked item has its six component scores in `[0, 1]` (the distance
component including the extra 0.2 soft-band subtraction, clamped at 0)
and its weighted total in `[0, 100]`, both before the diversity penalty
(`rankPre`) and in the final returned list (`rankActivities`). -/
theorem score_components_in_range (user : UserRequest) (candidates : List Candidate)
    (weather : Option WeatherSnapshot)
    (hbudget : 0 ≤ user.budget_per_person_gbp) (hradius : 0 < user.preferred_radius_km)
    (hgroup : 1 ≤ user.group_size)
    (hcands : ∀ c ∈ candidates, (∀ x, c.rating = some x → 0 ≤ x ∧ x ≤ 5) ∧
      0 ≤ c.distance_km_from_center ∧ (∀ k, c.capacity_hint = some k → 0 ≤ k)) :
    (∀ pre, rankPre user candidates weather = Except.ok pre →
      ∀ r ∈ pre, scoreInRange r) ∧
    (∀ fin, rankActivities user candidates weather = Except.ok fin →
      ∀ r ∈ fin, scoreInRange r) := by
  have hpre : ∀ pre, rankPre user candidates weather = Except.ok pre →
      ∀ r ∈ pre, scoreInRange r := by
    intro pre hok r hr
    rcases rankPre_mem user candidates weather pre hok r hr with
      ⟨c, hc, _, _, hreq, _⟩
    rcases hcands c hc with ⟨hrat, hdist, hcap⟩
    rcases scoreItem_bounds user weather c hbudget hradius hgroup hrat hdist hcap with
      ⟨h1, h2, h3, h4, h5, h6, h7⟩
    rw [hreq]
    exact ⟨h1, h2, h3, h4, h5, h6, h7⟩
  refine ⟨hpre, ?_⟩
  intro fin hok r hr
  unfold rankActivities at hok
  simp only [bind, Except.bind] at hok
  cases hp : rankPre user candidates weather with
  | error e => rw [hp] at hok; exact absurd hok (by simp)
  | ok pre =>
    rw [hp] at hok
    dsimp only at hok
    simp only [pure, Except.pure, Except.ok.injEq] at hok
    rw [← hok] at hr
    have hr1 : r ∈ applyDiversityPenalty pre := List.mem_of_mem_take hr
    rcases applyDiversityPenalty_frame pre r hr1 with
      ⟨r0, hr0, hitem, hcomps, -, -, -, hscore⟩
    rcases hpre pre hp r0 hr0 with ⟨h1, h2, h3, h4, h5, h6, h7⟩
    refine ⟨?_, ?_, ?_, ?_, ?_, ?_, ?_⟩
    · rw [hcomps]; exact h1
    · rw [hcomps]; exact h2
    · rw [hcomps]; exact h3
    · rw [hcomps]; exact h4
    · rw [hcomps]; exact h5
    · rw [hcomps]; exact h6
    · rcases hscore with hs | hs <;> rw [hs]
      · exact h7
      · constructor
        · nlinarith [h7.1]
        · nlinarith [h7.1, h7.2]

/-- Witness for C4 at the round-trip example input. -/
theorem score_components_in_range_witness :
    (0 ≤ reqKaraoke.budget_per_person_gbp ∧ 0 < reqKaraoke.preferred_radius_km ∧
      1 ≤ reqKaraoke.group_size) ∧
    (∀ r ∈ rankedKaraoke, scoreInRange r) := by
  constructor
  · refine ⟨?_, ?_, ?_⟩ <;> with_unfolding_all decide
  · exact (score_components_in_range reqKaraoke [barKaraoke, eventFar] none
      (by with_unfolding_all decide) (by with_unfolding_all decide)
      (by with_unfolding_all decide)
      (by
        intro c hc
        rcases List.mem_cons.mp hc with rfl | hc
        · refine ⟨?_, ?_, ?_⟩
          · intro x hx
            rw [show barKaraoke.rating = some 4.7 from rfl] at hx
            cases hx
            constructor <;> with_unfolding_all decide
          · with_unfolding_all decide
          · intro k hk
            rw [show barKaraoke.capacity_hint = none from rfl] at hk
            cases hk
        · rcases List.mem_cons.mp hc with rfl | hc
          · refine ⟨?_, ?_, ?_⟩
            · intro x hx
              rw [show eventFar.rating = none from rfl] at hx
              cases hx
            · with_unfolding_all decide
            · intro k hk
              rw [show eventFar.capacity_hint = none from rfl] at hk
              cases hk
          · exact absurd hc (List.not_mem_nil c))).2
      rankedKaraoke (by with_unfolding_all rfl)


/-! ### C1 -/

theorem qfloor_eq_floor (x : ℚ) : qfloor x = ⌊x⌋ := by
  unfold qfloor
  rw [Rat.floor_def, Int.fdiv_eq_ediv _ (Int.ofNat_nonneg x.den)]

/-- Round-half-to-even moves a value up by at most one half. -/
theorem rhe_le (x : ℚ) : (rhe x : ℚ) ≤ x + 1 / 2 := by
  unfold rhe
  rw [qfloor_eq_floor]
  have hfl : (⌊x⌋ : ℚ) ≤ x := Int.floor_le x
  split_ifs with h1 h2 h3
  · linarith
  · push_cast
    linarith
  · have heq : x - (⌊x⌋ : ℚ) = 1 / 2 := le_antisymm (le_of_not_lt h2) (le_of_not_lt h1)
    linarith
  · push_cast
    have heq : x - (⌊x⌋ : ℚ) = 1 / 2 := le_antisymm (le_of_not_lt h2) (le_of_not_lt h1)
    linarith

/-- Python `round(x, 2)` exceeds a bound on `x` by at most half a penny. -/
theorem round2_le (x B : ℚ) (h : x ≤ B) : round2 x ≤ B + 1 / 200 := by
  unfold round2
  have h1 := rhe_le (x * 100)
  calc (rhe (x * 100) : ℚ) / 100 ≤ (x * 100 + 1 / 2) / 100 := by
        apply div_le_div_of_nonneg_right h1 (by norm_num)
    _ = x + 1 / 200 := by ring
    _ ≤ B + 1 / 200 := by linarith

theorem alist_lookup_mem {κ α : Type} [DecidableEq κ] (k : κ) (l : List (κ × α)) (v : α)
    (h : alist.lookup k l = some v) : (k, v) ∈ l := by
  induction l with
  | nil => exact absurd h (by simp [alist.lookup])
  | cons p rest ih =>
    rcases p with ⟨k0, v0⟩
    simp only [alist.lookup] at h
    by_cases hk : k = k0
    · rw [if_pos hk] at h
      cases h
      rw [hk]
      exact List.mem_cons_self _ _
    · rw [if_neg hk] at h
      exact List.mem_cons_of_mem _ (ih h)

/-- Every template the source can pick has exactly three slots. -/
theorem pickTemplates_length (moods : List String) :
    ∀ t ∈ pickTemplates moods, t.length = 3 := by
  intro t ht
  unfold pickTemplates at ht
  split_ifs at ht with h
  · rcases List.mem_singleton.mp ht with rfl
    rfl
  · rcases List.mem_filterMap.mp ht with ⟨mood, _, hlook⟩
    have hmem := alist_lookup_mem (pyLower mood) ITINERARY_TEMPLATES t hlook
    have hv : t ∈ ITINERARY_TEMPLATES.map Prod.snd := List.mem_map_of_mem Prod.snd hmem
    simp only [ITINERARY_TEMPLATES, List.map_cons, List.map_nil, List.mem_cons,
      List.not_mem_nil, or_false] at hv
    rcases hv with h | h | h | h | h | h <;> rw [h] <;> rfl

/-- `slotStep` appends exactly one stop, carrying the chosen item's id,
and records that id as used. -/
theorem slotStep_shape (distKm : Location → Location → ℚ) (tlen i : ℕ) (st : BuildState)
    (r : RankedItem) :
    (slotStep distKm tlen i st r).stops.map ItineraryStop.id =
      st.stops.map ItineraryStop.id ++ [r.item.id] ∧
    (slotStep distKm tlen i st r).stops.length = st.stops.length + 1 ∧
    (slotStep distKm tlen i st r).usedIds = st.usedIds ++ [r.item.id] := by
  unfold slotStep
  refine ⟨?_, ?_, rfl⟩
  · simp
  · simp

/-- The invariant of the slot loop: stop ids are distinct and all
recorded in `usedIds`, and at most one stop is added per slot. -/
theorem fillSlots_invariant (distKm : Location → Location → ℚ) (user : UserRequest)
    (ranked : List RankedItem) (tlen : ℕ) (slots : List String) :
    ∀ (i : ℕ) (st : BuildState),
    (st.stops.map ItineraryStop.id).Nodup →
    (∀ s ∈ st.stops, s.id ∈ st.usedIds) →
    ((fillSlots distKm user ranked tlen slots i st).stops.map ItineraryStop.id).Nodup ∧
    (fillSlots distKm user ranked tlen slots i st).stops.length ≤
      st.stops.length + slots.length := by
  induction slots with
  | nil =>
    intro i st hnodup _
    exact ⟨hnodup, by simp [fillSlots]⟩
  | cons slot rest ih =>
    intro i st hnodup hsub
    simp only [fillSlots]
    cases hcand : slotCandidate distKm user ranked
        ((splitOnChar '|' slot.data).map String.mk) st with
    | none =>
      rcases ih (i + 1) st hnodup hsub with ⟨ha, hb⟩
      exact ⟨ha, by simp only [List.length_cons]; omega⟩
    | some r =>
      have hpred := List.find?_some hcand
      simp only [Bool.and_eq_true, decide_eq_true_eq] at hpred
      have hnotused : r.item.id ∉ st.usedIds := by
        intro hin
        have : st.usedIds.contains r.item.id = true := by simpa using hin
        rw [this] at hpred
        simp at hpred
      have hid_not_in_stops : r.item.id ∉ st.stops.map ItineraryStop.id := by
        intro hin
        rcases List.mem_map.mp hin with ⟨s, hs, hsid⟩
        exact hnotused (hsid ▸ hsub s hs)
      rcases slotStep_shape distKm tlen i st r with ⟨hids, hlen, hused⟩
      have hnodup2 : ((slotStep distKm tlen i st r).stops.map ItineraryStop.id).Nodup := by
        rw [hids, List.nodup_append]
        refine ⟨hnodup, List.nodup_singleton _, ?_⟩
        intro a ha hb
        rcases List.mem_singleton.mp hb with rfl
        exact hid_not_in_stops ha
      have hsub2 : ∀ s ∈ (slotStep distKm tlen i st r).stops,
          s.id ∈ (slotStep distKm tlen i st r).usedIds := by
        intro s hs
        have hsid : s.id ∈ (slotStep distKm tlen i st r).stops.map ItineraryStop.id :=
          List.mem_map_of_mem ItineraryStop.id hs
        rw [hids] at hsid
        rw [hused]
        rcases List.mem_append.mp hsid with h | h
        · rcases List.mem_map.mp h with ⟨s0, hs0, hid0⟩
          exact List.mem_append_left _ (hid0 ▸ hsub s0 hs0)
        · exact List.mem_append_right _ h
      rcases ih (i + 1) (slotStep distKm tlen i st r) hnodup2 hsub2 with ⟨ha, hb⟩
      refine ⟨ha, ?_⟩
      rw [hlen] at hb
      simp only [List.length_cons]
      omega

/-- The acceptance properties of one built itinerary: between 2 and
`template.length` stops, pairwise-distinct stop ids, and a pre-rounding
total cost within `1.2 ×` budget (hence a stored, 2-decimal-rounded
`total_cost_pp` within `1.2 ×` budget plus half a penny). -/
theorem tryBuildTemplate_props (distKm : Location → Location → ℚ) (user : UserRequest)
    (ranked : List RankedItem) (template : List String) (it : Itinerary)
    (h : tryBuildTemplate distKm user ranked template = Except.ok (some it)) :
    2 ≤ it.stops.length ∧ it.stops.length ≤ template.length ∧
    (it.stops.map ItineraryStop.id).Nodup ∧
    it.total_cost_pp ≤ user.budget_per_person_gbp * 1.2 + 1 / 200 := by
  unfold tryBuildTemplate at h
  simp only [bind, Except.bind] at h
  cases hp : parseTime user.start_time with
  | error e => rw [hp] at h; exact absurd h (by simp)
  | ok t0 =>
    rw [hp] at h
    dsimp only at h
    rcases fillSlots_invariant distKm user ranked template.length template 0
      { stops := [], currentTime := t0, totalCost := 0, totalWalk := 0,
        lastLocation := user.center.getD ⟨55.858, -4.259⟩, usedIds := [] }
      List.nodup_nil (by intro s hs; exact absurd hs (List.not_mem_nil s)) with
      ⟨hnodup, hlen⟩
    set st := fillSlots distKm user ranked template.length template 0
      { stops := [], currentTime := t0, totalCost := 0, totalWalk := 0,
        lastLocation := user.center.getD ⟨55.858, -4.259⟩, usedIds := [] } with hst
    by_cases h2 : st.stops.length < 2
    · rw [if_pos h2] at h
      exact absurd h (by simp [pure, Except.pure])
    · rw [if_neg h2] at h
      by_cases h3 : user.budget_per_person_gbp * 1.2 < st.totalCost
      · rw [if_pos h3] at h
        exact absurd h (by simp [pure, Except.pure])
      · rw [if_neg h3] at h
        simp only [pure, Except.pure, Except.ok.injEq, Option.some.injEq] at h
        have hstops : it.stops = st.stops := by rw [← h]
        have hcost : it.total_cost_pp = round2 st.totalCost := by rw [← h]
        refine ⟨?_, ?_, ?_, ?_⟩
        · rw [hstops]
          omega
        · rw [hstops]
          simpa using hlen
        · rw [hstops]
          exact hnodup
        · rw [hcost]
          exact round2_le st.totalCost (user.budget_per_person_gbp * 1.2) (le_of_not_lt h3)

/-- Itineraries returned by the template fold all come from a successful
`tryBuildTemplate` on one of the folded templates. -/
theorem buildItineraries_fold (distKm : Location → Location → ℚ) (user : UserRequest)
    (ranked : List RankedItem) (templates : List (List String)) :
    ∀ (acc out : List Itinerary),
    (templates.foldlM
      (fun acc template => do
        let itin ← tryBuildTemplate distKm user ranked template
        return match itin with
        | some it => acc ++ [it]
        | none => acc)
      acc) = Except.ok out →
    ∀ it ∈ out, it ∈ acc ∨ ∃ template ∈ templates,
      tryBuildTemplate distKm user ranked template = Except.ok (some it) := by
  induction templates with
  | nil =>
    intro acc out h it hit
    simp only [List.foldlM, pure, Except.pure, Except.ok.injEq] at h
    rw [← h] at hit
    exact Or.inl hit
  | cons t rest ih =>
    intro acc out h it hit
    simp only [List.foldlM, bind, Except.bind] at h
    cases htry : tryBuildTemplate distKm user ranked t with
    | error e => rw [htry] at h; exact absurd h (by simp)
    | ok res =>
      rw [htry] at h
      dsimp only at h
      cases res with
      | none =>
        rcases ih acc out h it hit with hin | ⟨tm, htm, hok⟩
        · exact Or.inl hin
        · exact Or.inr ⟨tm, List.mem_cons_of_mem t htm, hok⟩
      | some it0 =>
        rcases ih (acc ++ [it0]) out h it hit with hin | ⟨tm, htm, hok⟩
        · rcases List.mem_append.mp hin with hin | hin
          · exact Or.inl hin
          · rcases List.mem_singleton.mp hin with rfl
            exact Or.inr ⟨t, List.mem_cons_self t rest, htry⟩
        · exact Or.inr ⟨tm, List.mem_cons_of_mem t htm, hok⟩

/-- Claim C1 (amended): every itinerary returned by `build_itineraries`
has exactly 2 or 3 stops and no repeated candidate id, and its
pre-rounding total cost is at most `1.2 ×` budget — the stored
`total_cost_pp` is that total rounded to 2 decimals, so it can exceed
`1.2 ×` budget by up to half a penny (1/200) but no more. -/
theorem itinerary_invariants (distKm : Location → Location → ℚ) (user : UserRequest)
    (ranked : List RankedItem) (out : List Itinerary)
    (h : buildItineraries distKm user ranked = Except.ok out) :
    ∀ it ∈ out, (it.stops.length = 2 ∨ it.stops.length = 3) ∧
      (it.stops.map ItineraryStop.id).Nodup ∧
      it.total_cost_pp ≤ user.budget_per_person_gbp * 1.2 + 1 / 200 := by
  intro it hit
  unfold buildItineraries at h
  rcases buildItineraries_fold distKm user ranked ((pickTemplates user.moods).take 2)
    [] out h it hit with hin | ⟨template, htm, hok⟩
  · exact absurd hin (List.not_mem_nil it)
  · have htlen : template.length = 3 :=
      pickTemplates_length user.moods template (List.mem_of_mem_take htm)
    rcases tryBuildTemplate_props distKm user ranked template it hok with
      ⟨h2, h3, hnodup, hcost⟩
    rw [htlen] at h3
    exact ⟨by omega, hnodup, hcost⟩

/-- A request whose budget 0.3125 makes `1.2 × budget` exactly 0.375
(both sides exactly representable in binary floating point). -/
def reqTight : UserRequest :=
  { date := ⟨2025, 11, 15⟩, start_time := "19:00", duration_minutes := 180,
    group_size := 4, budget_per_person_gbp := 0.3125, moods := [] }

/-- First event of the C1 counterexample, cost 0.1875 per person. -/
def eventCheapA : Candidate :=
  { id := "evA", type := "event", name := "EvA", categories := ["bar"],
    location := centerLoc, distance_km_from_center := 0, indoor := true,
    price_min := some 0.1875,
    start := some ⟨2025, 11, 15, 19, 0, 0, none⟩,
    endTime := some ⟨2025, 11, 15, 20, 0, 0, none⟩ }

/-- Second event of the C1 counterexample, cost 0.1875 per person. -/
def eventCheapB : Candidate :=
  { id := "evB", type := "event", name := "EvB", categories := ["bar"],
    location := centerLoc, distance_km_from_center := 0, indoor := true,
    price_min := some 0.1875,
    start := some ⟨2025, 11, 15, 20, 0, 0, none⟩,
    endTime := some ⟨2025, 11, 15, 21, 0, 0, none⟩ }

/-- The ranked list of the C1 counterexample input. -/
def rankedTight : List RankedItem :=
  (rankActivities reqTight [eventCheapA, eventCheapB] none).toOption.getD []

/-- The itineraries built from the C1 counterexample input. -/
def itinsTight : List Itinerary :=
  (buildItineraries distZero reqTight rankedTight).toOption.getD []

/-- Counterexample to claim C1 as stated: the accepted two-stop itinerary
has a pre-rounding total cost of exactly 0.375 = 1.2 × budget, but the
stored `total_cost_pp = round(0.375, 2) = 0.38` exceeds `1.2 × budget`
(CPython's `round` also yields 0.38 here, every value involved being an
exact binary float). -/
theorem itinerary_budget_cex :
    rankActivities reqTight [eventCheapA, eventCheapB] none = Except.ok rankedTight ∧
    buildItineraries distZero reqTight rankedTight = Except.ok itinsTight ∧
    itinsTight.map Itinerary.total_cost_pp = [0.38] ∧
    ¬ ((0.38 : ℚ) ≤ reqTight.budget_per_person_gbp * 1.2) := by
  refine ⟨?_, ?_, ?_, ?_⟩
  · with_unfolding_all rfl
  · with_unfolding_all rfl
  · with_unfolding_all rfl
  · with_unfolding_all decide

/-- Witness for the amended C1 at the counterexample input. -/
theorem itinerary_invariants_witness :
    buildItineraries distZero reqTight rankedTight = Except.ok itinsTight ∧
    ∀ it ∈ itinsTight, (it.stops.length = 2 ∨ it.stops.length = 3) ∧
      (it.stops.map ItineraryStop.id).Nodup ∧
      it.total_cost_pp ≤ reqTight.budget_per_person_gbp * 1.2 + 1 / 200 :=
  ⟨by with_unfolding_all rfl,
   itinerary_invariants distZero reqTight rankedTight itinsTight
     (by with_unfolding_all rfl)⟩

/-! ### C5 -/

/-- Counterexample to claim C5 as stated: on exactly the two candidates of
the round-trip example, `build_itineraries` returns **no** itinerary at
all — the karaoke template `["bar", "karaoke", "bar"]` can fill only one
slot from a one-element ranked list (a candidate is never reused), and a
one-stop itinerary is discarded by the 2-stop minimum — so no itinerary
includes the bar as its first stop. -/
theorem round_trip_no_itinerary_cex :
    rankActivities reqKaraoke [barKaraoke, eventFar] none = Except.ok rankedKaraoke ∧
    buildItineraries distZero reqKaraoke rankedKaraoke = Except.ok [] := by
  constructor
  · with_unfolding_all rfl
  · with_unfolding_all rfl

/-- Claim C5 (amended): the ranked list contains the karaoke bar and
excludes the 10 km event (soft radius 1.5 × 3 km = 4.5 km), but
`build_itineraries` returns zero itineraries: the karaoke template needs
at least two stops and only the bar is available. -/
theorem round_trip_amended :
    rankActivities reqKaraoke [barKaraoke, eventFar] none = Except.ok rankedKaraoke ∧
    rankedKaraoke.map (fun r => r.item.id) = ["bar1"] ∧
    buildItineraries distZero reqKaraoke rankedKaraoke = Except.ok [] := by
  refine ⟨?_, ?_, ?_⟩
  · with_unfolding_all rfl
  · with_unfolding_all rfl
  · with_unfolding_all rfl
